import Mathlib

/-!
Verification of the coordinate-transform core of the `geotiff` library.

The development shallowly embeds the Rust sources of the crate:

* `src/coordinate_transform.rs` — validation and dispatch (`from_tag_data`),
  the `CoordinateTransform` sum type and its `transform_to_model` /
  `transform_to_raster` entry points;
* `src/coordinate_transform/affine_transform.rs` — the affine strategy;
* `src/coordinate_transform/tie_point_and_pixel_scale.rs` — the scale/offset
  strategy;
* `src/coordinate_transform/tie_points.rs` — the triangulated strategy:
  mesh construction (`build_faces`), angle bisectors, face containment,
  barycentric location/interpolation and envelope computation;
* `src/decoder_ext.rs` / `src/lib.rs` — the caller contract for the
  "no transform present" case.

Modelling conventions:

* `f64` values are idealised as real numbers; `f64::is_sign_positive` on a
  computed coordinate test is modelled as `0 ≤ x`.  This real idealisation
  ignores the IEEE sign of zero: a cross product that is a difference of
  signed-zero products can evaluate to `-0.0`, which the program treats as
  sign-negative.  Where that distinction is observable (one claim about the
  triangulated transform at a hull control point) a dedicated signed-zero
  value type `SF` re-embeds the containment arithmetic with the exact IEEE
  sign rules.
* `f64::MIN` / `f64::MAX`, used by the code as envelope sentinels for
  "unbounded", are idealised as `⊥` / `⊤` in `EReal`.
* The Delaunay triangulation itself is produced by the external `delaunator`
  crate; it enters the embedding as an explicit `Triangulation` value
  (triangle index list plus convex-hull cycle), exactly the data the
  repository's `build_faces` consumes.
* The R*-tree (`rstar` crate) candidate enumeration is modelled as a linear
  first-match scan over the mesh in face order; the tree only ever filters by
  envelope containment, which is embedded faithfully.  The scan order is only
  observable when several faces contain a query point; all theorems below are
  stated at points where the answer is order-independent.
* Rust panics (`unwrap` on a failed face search) are modelled by `Option`,
  `none` standing for the panic.
* One claim concerns IEEE non-finite values; for it a dedicated value type
  `F64` with `inf` / `ninf` / `nan` constructors embeds the scale/offset
  evaluators a second time.
-/

namespace Geotiff

noncomputable section

/-- A 2D coordinate; models `geo_types::Coord` with `f64` components idealised
as reals. -/
@[ext]
structure Coord where
  x : ℝ
  y : ℝ

instance : Inhabited Coord := ⟨⟨0, 0⟩⟩

/-- Componentwise addition, as provided by `geo_types` and used in
`Face::contains` (`coords[0] + *from_direction`). -/
instance : Add Coord := ⟨fun a b => ⟨a.x + b.x, a.y + b.y⟩⟩

theorem Coord.add_def (a b : Coord) : a + b = ⟨a.x + b.x, a.y + b.y⟩ := rfl

/-- Real-idealised model of `f64::is_sign_positive`: `0 ≤ x`.  The
idealisation ignores the IEEE sign of zero — a cross product computed as a
difference of signed-zero products can be `-0.0`, which the program treats
as sign-negative while this model reads it as non-negative.  The signed-zero
refinement `SF.isSignPositive` below captures the distinction where it is
observable; theorems whose inputs produce only nonzero or `+0.0` cross
products are unaffected. -/
abbrev isSignPositive (x : ℝ) : Prop := 0 ≤ x

/-- The oriented-edge test from `Face::contains`: `point` lies on the
positive side of the edge `c1 → c2`. -/
def check (coord c1 c2 : Coord) : Prop :=
  isSignPositive ((c2.x - c1.x) * (coord.y - c1.y) - (c2.y - c1.y) * (coord.x - c1.x))

/-- Boundary of a face (`enum Boundary` in `tie_points.rs`). -/
inductive Boundary where
  | Open (coords : List Coord) (from_direction to_direction : Coord)
  | Closed (coords : List Coord)

/-- A mesh face (`struct Face` in `tie_points.rs`): an optional boundary and
the triangle's three support points. -/
structure Face where
  boundary : Option Boundary
  support_points : Coord × Coord × Coord

instance : Inhabited Face := ⟨⟨none, (default, default, default)⟩⟩

/-- Translation of `Face::contains`.  For an `Open` (wedge) boundary the two
virtual edges are `(coords[0] + from_direction) → coords[1]` and
`coords[1] → (coords[1] + to_direction)` — the second one is anchored at
`coords[1]` in the source, whatever the length of `coords` — plus every
consecutive pair of boundary coordinates.  For a `Closed` boundary the code
iterates `i` over `0..=3` and tests edge `coords[i] → coords[(i+1) % 3]`
(`3` being `support_points.len()`). -/
def Face.contains (self : Face) (coord : Coord) : Prop :=
  match self.boundary with
  | none => True
  | some (.Open coords from_direction to_direction) =>
      check coord (coords.getD 0 default + from_direction) (coords.getD 1 default) ∧
      check coord (coords.getD 1 default) (coords.getD 1 default + to_direction) ∧
      (∀ i, i + 1 < coords.length →
        check coord (coords.getD i default) (coords.getD (i + 1) default))
  | some (.Closed coords) =>
      ∀ i, i ≤ 3 → check coord (coords.getD i default) (coords.getD ((i + 1) % 3) default)

/-- Translation of `Face::locate`: barycentric parameters `(u, v)` of `coord`
with respect to the three support points. -/
def Face.locate (self : Face) (coord : Coord) : ℝ × ℝ :=
  let a := self.support_points.1
  let b := self.support_points.2.1
  let c := self.support_points.2.2
  let d := c.x * (a.y - b.y) - b.x * (a.y - c.y) + a.x * (b.y - c.y)
  (-(coord.x * (a.y - c.y) - c.x * (a.y - coord.y) + a.x * (c.y - coord.y)) / d,
   (coord.x * (a.y - b.y) - b.x * (a.y - coord.y) + a.x * (b.y - coord.y)) / d)

/-- Translation of `Face::interpolate`. -/
def Face.interpolate (self : Face) (params : ℝ × ℝ) : Coord :=
  let u := params.1
  let v := params.2
  let a := self.support_points.1
  let b := self.support_points.2.1
  let c := self.support_points.2.2
  ⟨-u * a.x - v * a.x + a.x + u * b.x + v * c.x,
   -u * a.y - v * a.y + a.y + u * b.y + v * c.y⟩

/-- Translation of `CoordExt::normalize` (`tie_points.rs`): divide both
components by the Euclidean length. -/
def normalize (c : Coord) : Coord :=
  let len := Real.sqrt (c.x ^ 2 + c.y ^ 2)
  ⟨c.x / len, c.y / len⟩

/-- Translation of `HullExt::contains_sequence`: whether `seq` occurs as a
contiguous subsequence of the cyclic list `self`, starting at some position
`i` and possibly wrapping around to the front.  Note the test is
direction-sensitive: only `seq` in the given order is searched for. -/
def contains_sequence (self seq : List ℕ) : Bool :=
  (List.range self.length).any fun i =>
    let k := min seq.length (self.length - i)
    ((seq.take k).isPrefixOf (self.drop i)) && ((seq.drop k).isPrefixOf self)

/-- Output of the external `delaunator::triangulate` call: flat triangle
index list (triples) and the convex hull as an ordered cycle of point
indices. -/
structure Triangulation where
  triangles : List ℕ
  hull : List ℕ

/-- Body of the angle-bisector loop in `build_faces`: the outward bisector
direction at `curr`, from its hull neighbours `prev` and `next`. -/
def bisector_direction (prev curr next : Coord) : Coord :=
  let prev_curr := normalize ⟨curr.x - prev.x, curr.y - prev.y⟩
  let next_curr := normalize ⟨curr.x - next.x, curr.y - next.y⟩
  normalize ⟨prev_curr.x + next_curr.x, prev_curr.y + next_curr.y⟩

/-- The `angle_bisectors` vector built by `build_faces`: starting from
`vec![None; points.len()]`, for each hull position `i` the entry at index
`hull[(i+1) % len]` is set to the bisector computed from the three
consecutive hull vertices at positions `i`, `i+1`, `i+2`. -/
def angle_bisectors (points : List Coord) (hull : List ℕ) : List (Option Coord) :=
  (List.range hull.length).foldl
    (fun acc i =>
      let pj := hull.getD i 0
      let cj := hull.getD ((i + 1) % hull.length) 0
      let nj := hull.getD ((i + 2) % hull.length) 0
      acc.set cj (some (bisector_direction (points.getD pj default) (points.getD cj default)
        (points.getD nj default))))
    (List.replicate points.length none)

/-- The `triangles.chunks(3)` iteration of `build_faces` (complete chunks
only; the input length is a multiple of 3 for every valid triangulation). -/
def chunks3 : List ℕ → List (ℕ × ℕ × ℕ)
  | i1 :: i2 :: i3 :: rest => (i1, i2, i3) :: chunks3 rest
  | _ => []

/-- Construction of a single face from one triangle chunk, translated from
the closure body in `build_faces`.  `bis` is the precomputed angle-bisector
vector; `bis.getD i none |>.getD default` models `angle_bisectors[i].unwrap()`
(the unwrap never fails on indices that lie on the hull). -/
def build_face (points : List Coord) (hull : List ℕ) (bis : List (Option Coord))
    (chunk : ℕ × ℕ × ℕ) : Face :=
  let i1 := chunk.1
  let i2 := chunk.2.1
  let i3 := chunk.2.2
  let b12 := contains_sequence hull [i1, i2]
  let b23 := contains_sequence hull [i2, i3]
  let b31 := contains_sequence hull [i3, i1]
  let c1 := points.getD i1 default
  let c2 := points.getD i2 default
  let c3 := points.getD i3 default
  let bisAt := fun i => ((bis.getD i none).getD default)
  let boundary : Option Boundary :=
    if b12 then
      if b23 then
        if b31 then
          none
        else
          some (.Open [c3, c1] (bisAt i3) (bisAt i1))
      else if b31 then
        some (.Open [c2, c3] (bisAt i2) (bisAt i3))
      else
        some (.Open [c2, c3, c1] (bisAt i2) (bisAt i1))
    else if b23 then
      if b31 then
        some (.Open [c1, c2] (bisAt i1) (bisAt i2))
      else
        some (.Open [c3, c1, c2] (bisAt i3) (bisAt i2))
    else if b31 then
      some (.Open [c1, c2, c3] (bisAt i1) (bisAt i3))
    else
      some (.Closed [c1, c2, c3, c1])
  { boundary := boundary, support_points := (c1, c2, c3) }

/-- Translation of `build_faces`. -/
def build_faces (points : List Coord) (triangulation : Triangulation) : List Face :=
  let bis := angle_bisectors points triangulation.hull
  (chunks3 triangulation.triangles).map (build_face points triangulation.hull bis)

/-- An axis-aligned bounding box with `EReal` bounds; models `rstar`'s
`AABB<Coord>` where the sentinels `f64::MIN` / `f64::MAX` are idealised as
`⊥` / `⊤`. -/
structure AABB where
  lower_x : EReal
  lower_y : EReal
  upper_x : EReal
  upper_y : EReal

/-- Idealisation of `f64::MIN` used by `compute_envelope`. -/
def f64MIN : EReal := ⊥

/-- Idealisation of `f64::MAX` used by `compute_envelope`. -/
def f64MAX : EReal := ⊤

/-- Translation of `TreeItem::compute_envelope`.  `Interior` (no boundary)
gets the all-covering box; a closed triangle gets the bounding box of its
boundary coordinates; a wedge gets the bounding box of its boundary
coordinates extended to infinity on every side one of its two rays points
toward (decided through the right-hand perpendicular `(ray.y, -ray.x)`).
The sign tests inherit the real idealisation of `isSignPositive`: a
perpendicular component that is IEEE `-0.0` would make the program extend
the opposite side of the box; no theorem below depends on the envelope value
of such a ray. -/
def compute_envelope (face : Face) : AABB :=
  match face.boundary with
  | none => ⟨f64MIN, f64MIN, f64MAX, f64MAX⟩
  | some (.Open coords from_direction to_direction) =>
      let bbox := coords.foldl
        (fun (acc : AABB) c =>
          ⟨min acc.lower_x (c.x : EReal), min acc.lower_y (c.y : EReal),
           max acc.upper_x (c.x : EReal), max acc.upper_y (c.y : EReal)⟩)
        ⟨f64MAX, f64MAX, f64MIN, f64MIN⟩
      [from_direction, to_direction].foldl
        (fun (acc : AABB) direction =>
          let nx := direction.y
          let ny := -direction.x
          let acc1 :=
            if isSignPositive nx then { acc with upper_x := f64MAX }
            else { acc with lower_x := f64MIN }
          if isSignPositive ny then { acc1 with upper_y := f64MAX }
          else { acc1 with lower_y := f64MIN })
        bbox
  | some (.Closed coords) =>
      coords.foldl
        (fun (acc : AABB) c =>
          ⟨min acc.lower_x (c.x : EReal), min acc.lower_y (c.y : EReal),
           max acc.upper_x (c.x : EReal), max acc.upper_y (c.y : EReal)⟩)
        ⟨f64MAX, f64MAX, f64MIN, f64MIN⟩

/-- Point membership in an envelope; models the degenerate
`locate_in_envelope_intersecting(&AABB::from_point(coord))` filter. -/
def AABB.contains_point (self : AABB) (c : Coord) : Prop :=
  self.lower_x ≤ (c.x : EReal) ∧ (c.x : EReal) ≤ self.upper_x ∧
  self.lower_y ≤ (c.y : EReal) ∧ (c.y : EReal) ≤ self.upper_y

open scoped Classical in
/-- First face (by mesh position, starting at `start`) whose envelope and
exact `contains` predicate both hold at `coord`; models the
`locate_in_envelope_intersecting(..).find(contains)` query of
`transform_by_tie_points`. -/
def find_face (mesh : List Face) (coord : Coord) (start : ℕ) : Option ℕ :=
  match mesh with
  | [] => none
  | f :: rest =>
      if (compute_envelope f).contains_point coord ∧ f.contains coord then some start
      else find_face rest coord (start + 1)

/-- Translation of `transform_by_tie_points`: locate the face containing
`coord` in the source mesh, compute barycentric parameters there, and
interpolate them in the same-index face of the target mesh.  `none` models
the panic of the source's `unwrap` when no face matches. -/
def transform_by_tie_points (source_mesh target_mesh : List Face) (coord : Coord) :
    Option Coord :=
  match find_face source_mesh coord 0 with
  | none => none
  | some index =>
      some ((target_mesh.getD index default).interpolate
        ((source_mesh.getD index default).locate coord))

/-- The transform sum type (`enum CoordinateTransform`).  The two `OwnedRTree`
indexes of the `TiePoints` variant are not stored: queries are modelled
directly against the meshes (see `find_face`). -/
inductive CoordinateTransform where
  | AffineTransform (transform inverse_transform : List ℝ)
  | TiePointAndPixelScale (raster_point model_point pixel_scale : Coord)
  | TiePoints (raster_mesh model_mesh : List Face)

/-- Translation of `transform_by_affine_transform`. -/
def transform_by_affine_transform (transform : List ℝ) (coord : Coord) : Coord :=
  ⟨coord.x * transform.getD 0 0 + coord.y * transform.getD 1 0 + transform.getD 2 0,
   coord.x * transform.getD 3 0 + coord.y * transform.getD 4 0 + transform.getD 5 0⟩

/-- Translation of `from_transformation_matrix` (`affine_transform.rs`). -/
def from_transformation_matrix (m : List ℝ) : Except String CoordinateTransform :=
  let t0 := m.getD 0 0
  let t1 := m.getD 1 0
  let t2 := m.getD 3 0
  let t3 := m.getD 4 0
  let t4 := m.getD 5 0
  let t5 := m.getD 7 0
  let det := t0 * t4 - t1 * t3
  if |det| < 1e-15 then
    .error "Provided transformation matrix is not invertible"
  else
    .ok (.AffineTransform [t0, t1, t2, t3, t4, t5]
      [t4 / det, -t1 / det, (t1 * t5 - t2 * t4) / det,
       -t3 / det, t0 / det, (-t0 * t5 + t2 * t3) / det])

/-- Translation of `from_tie_point_and_pixel_scale`. -/
def from_tie_point_and_pixel_scale (tie_points pixel_scale : List ℝ) :
    Except String CoordinateTransform :=
  .ok (.TiePointAndPixelScale
    ⟨tie_points.getD 0 0, tie_points.getD 1 0⟩
    ⟨tie_points.getD 3 0, tie_points.getD 4 0⟩
    ⟨pixel_scale.getD 0 0, pixel_scale.getD 1 0⟩)

/-- Translation of `transform_to_model_by_tie_point_and_pixel_scale`. -/
def transform_to_model_by_tie_point_and_pixel_scale
    (raster_point model_point pixel_scale coord : Coord) : Coord :=
  ⟨(coord.x - raster_point.x) * pixel_scale.x + model_point.x,
   (coord.y - raster_point.y) * -pixel_scale.y + model_point.y⟩

/-- Translation of `transform_to_raster_by_tie_point_and_pixel_scale`. -/
def transform_to_raster_by_tie_point_and_pixel_scale
    (raster_point model_point pixel_scale coord : Coord) : Coord :=
  ⟨(coord.x - model_point.x) / pixel_scale.x + raster_point.x,
   (coord.y - model_point.y) / -pixel_scale.y + raster_point.y⟩

/-- The `tie_points.chunks(6)` iteration of `from_tie_points` (complete
chunks only; the length was validated to be a multiple of 6). -/
def chunks6 : List ℝ → List (List ℝ)
  | a :: b :: c :: d :: e :: f :: rest => [a, b, c, d, e, f] :: chunks6 rest
  | _ => []

/-- Translation of `from_tie_points`: split the flat array into groups of 6,
project raster points (`chunk[0]`, `chunk[1]`) and model points (`chunk[3]`,
`chunk[4]`), triangulate the raster points (external `delaunator` call,
passed in as `triangulate`) and build both meshes over the one shared
triangulation. -/
def from_tie_points (triangulate : List Coord → Triangulation) (tie_points : List ℝ) :
    Except String CoordinateTransform :=
  let raster_points := (chunks6 tie_points).map
    (fun c => (⟨c.getD 0 0, c.getD 1 0⟩ : Coord))
  let model_points := (chunks6 tie_points).map
    (fun c => (⟨c.getD 3 0, c.getD 4 0⟩ : Coord))
  let triangulation := triangulate raster_points
  .ok (.TiePoints (build_faces raster_points triangulation)
    (build_faces model_points triangulation))

/-- Validation of `ModelPixelScaleTag` data (`from_tag_data`, first block). -/
def validate_pixel_scale : Option (List ℝ) → Except String (Option (List ℝ))
  | none => .ok none
  | some data =>
      if data.length = 3 then .ok (some data)
      else .error "Number values in ModelPixelScaleTag must be equal to 3"

/-- Validation of `ModelTiePointTag` data (`from_tag_data`, second block). -/
def validate_tie_points : Option (List ℝ) → Except String (Option (List ℝ))
  | none => .ok none
  | some data =>
      if data.length = 0 then
        .error "Number of values in ModelTiePointTag must be greater than 0"
      else if data.length % 6 ≠ 0 then
        .error "Number of values in ModelTiePointTag must be divisible by 6"
      else .ok (some data)

/-- Validation of `ModelTransformationTag` data (`from_tag_data`, third
block). -/
def validate_transformation_matrix : Option (List ℝ) → Except String (Option (List ℝ))
  | none => .ok none
  | some data =>
      if data.length = 16 then .ok (some data)
      else .error "Number of values in ModelTransformationTag must be equal to 16"

/-- Translation of `CoordinateTransform::from_tag_data`.  The `tie-points`
cargo feature is modelled as the capability flag `tie_points_supported`; the
external `delaunator::triangulate` is the parameter `triangulate`. -/
def from_tag_data (tie_points_supported : Bool) (triangulate : List Coord → Triangulation)
    (pixel_scale_data model_tie_points_data model_transformation_data : Option (List ℝ)) :
    Except String CoordinateTransform :=
  match validate_pixel_scale pixel_scale_data with
  | .error e => .error e
  | .ok pixel_scale =>
    match validate_tie_points model_tie_points_data with
    | .error e => .error e
    | .ok tie_points =>
      match validate_transformation_matrix model_transformation_data with
      | .error e => .error e
      | .ok transformation_matrix =>
        match transformation_matrix with
        | some m =>
            if pixel_scale.isSome then
              .error "ModelPixelScaleTag must not be specified when ModelTransformationTag is present"
            else if tie_points.isSome then
              .error "ModelTiePointTag must not be specified when ModelTransformationTag is present"
            else
              from_transformation_matrix m
        | none =>
            match tie_points with
            | none =>
                .error "ModelTiePointTag must be present when ModelTransformationTag is missing"
            | some tp =>
                if tp.length = 6 then
                  match pixel_scale with
                  | none =>
                      .error "ModelPixelScaleTag must be specified when ModelTiePointTag contains 6 values"
                  | some ps => from_tie_point_and_pixel_scale tp ps
                else if tie_points_supported then
                  from_tie_points triangulate tp
                else
                  .error "Transformation by tie points is not supported"

/-- Translation of `transform_to_model`.  The result is `some` except when
the triangulated face search panics (modelled by `none`). -/
def transform_to_model (t : CoordinateTransform) (coord : Coord) : Option Coord :=
  match t with
  | .AffineTransform transform _ => some (transform_by_affine_transform transform coord)
  | .TiePointAndPixelScale raster_point model_point pixel_scale =>
      some (transform_to_model_by_tie_point_and_pixel_scale
        raster_point model_point pixel_scale coord)
  | .TiePoints raster_mesh model_mesh => transform_by_tie_points raster_mesh model_mesh coord

/-- Translation of `transform_to_raster`. -/
def transform_to_raster (t : CoordinateTransform) (coord : Coord) : Option Coord :=
  match t with
  | .AffineTransform _ inverse_transform =>
      some (transform_by_affine_transform inverse_transform coord)
  | .TiePointAndPixelScale raster_point model_point pixel_scale =>
      some (transform_to_raster_by_tie_point_and_pixel_scale
        raster_point model_point pixel_scale coord)
  | .TiePoints raster_mesh model_mesh => transform_by_tie_points model_mesh raster_mesh coord

/-- Whether an `Except` value is an error. -/
def isErr : Except String CoordinateTransform → Bool
  | .error _ => true
  | .ok _ => false

/-- Translation of `DecoderExt::coordinate_transform` (`decoder_ext.rs`)
after the three tag payloads have been fetched and type-decoded: if all three
are absent the image has no coordinate transform (`Ok(None)`); otherwise the
result of `from_tag_data` is propagated. -/
def coordinate_transform (tie_points_supported : Bool)
    (triangulate : List Coord → Triangulation)
    (pixel_scale_data tie_points_data model_transformation_data : Option (List ℝ)) :
    Except String (Option CoordinateTransform) :=
  if pixel_scale_data.isNone && tie_points_data.isNone && model_transformation_data.isNone then
    .ok none
  else
    (from_tag_data tie_points_supported triangulate
      pixel_scale_data tie_points_data model_transformation_data).map some

/-- The coordinate step of `GeoTiff::compute_index` (`lib.rs`): with no
transform the model coordinate is used as the raster coordinate unchanged;
with a transform, `transform_to_raster` is applied. -/
def compute_index_coord (coordinate_transform : Option CoordinateTransform)
    (coord : Coord) : Option Coord :=
  match coordinate_transform with
  | none => some coord
  | some transform => transform_to_raster transform coord

/-- A placeholder for the external triangulation procedure, used when a
theorem needs a concrete closed instance whose triangulated branch is not
taken. -/
def dummy_triangulation : List Coord → Triangulation := fun _ => ⟨[], []⟩

/-! ### An IEEE-754-style value model for the division-by-zero claim

The real idealisation above cannot express the non-finite `f64` values that
`transform_to_raster_by_tie_point_and_pixel_scale` produces when a pixel
scale component is zero.  `F64` models a double as either a finite real, a
signed infinity, or NaN, with the IEEE rules for the operations the
scale/offset evaluators use. -/

/-- An IEEE double: finite (exact real), positive/negative infinity, or
NaN. -/
inductive F64 where
  | fin (x : ℝ)
  | inf
  | ninf
  | nan

/-- Finiteness of an `F64` value. -/
def F64.isFinite : F64 → Bool
  | .fin _ => true
  | _ => false

/-- IEEE negation. -/
def F64.neg : F64 → F64
  | .fin x => .fin (-x)
  | .inf => .ninf
  | .ninf => .inf
  | .nan => .nan

/-- IEEE subtraction (finite arithmetic kept exact). -/
def F64.sub : F64 → F64 → F64
  | .nan, _ => .nan
  | _, .nan => .nan
  | .fin a, .fin b => .fin (a - b)
  | .fin _, .inf => .ninf
  | .fin _, .ninf => .inf
  | .inf, .fin _ => .inf
  | .ninf, .fin _ => .ninf
  | .inf, .inf => .nan
  | .ninf, .ninf => .nan
  | .inf, .ninf => .inf
  | .ninf, .inf => .ninf

/-- IEEE addition (finite arithmetic kept exact). -/
def F64.add : F64 → F64 → F64
  | .nan, _ => .nan
  | _, .nan => .nan
  | .fin a, .fin b => .fin (a + b)
  | .fin _, .inf => .inf
  | .fin _, .ninf => .ninf
  | .inf, .fin _ => .inf
  | .ninf, .fin _ => .ninf
  | .inf, .inf => .inf
  | .ninf, .ninf => .ninf
  | .inf, .ninf => .nan
  | .ninf, .inf => .nan

/-- IEEE multiplication restricted to the cases the evaluators reach
(finite × finite; any operand NaN). -/
def F64.mul : F64 → F64 → F64
  | .fin a, .fin b => .fin (a * b)
  | _, _ => .nan

/-- IEEE division: a nonzero finite value divided by zero is a signed
infinity, zero by zero is NaN (the single model zero stands for `+0.0`). -/
def F64.div : F64 → F64 → F64
  | .fin a, .fin b =>
      if b = 0 then
        if a = 0 then .nan
        else if 0 < a then .inf
        else .ninf
      else .fin (a / b)
  | _, _ => .nan

/-- A coordinate with IEEE-modelled components. -/
structure FCoord where
  x : F64
  y : F64

/-- `transform_to_model_by_tie_point_and_pixel_scale` re-expressed over the
IEEE value model (same formula as the real translation above). -/
def transform_to_model_by_tps_f64 (raster_point model_point pixel_scale coord : FCoord) :
    FCoord :=
  ⟨((coord.x.sub raster_point.x).mul pixel_scale.x).add model_point.x,
   ((coord.y.sub raster_point.y).mul pixel_scale.y.neg).add model_point.y⟩

/-- `transform_to_raster_by_tie_point_and_pixel_scale` re-expressed over the
IEEE value model: note the unguarded divisions by `pixel_scale.x` and
`-pixel_scale.y`. -/
def transform_to_raster_by_tps_f64 (raster_point model_point pixel_scale coord : FCoord) :
    FCoord :=
  ⟨((coord.x.sub model_point.x).div pixel_scale.x).add raster_point.x,
   ((coord.y.sub model_point.y).div pixel_scale.y.neg).add raster_point.y⟩

/-! ### A concrete triangulated mesh

Five tie points: the 3-4-5 diamond `(0,0)`, `(4,-3)`, `(8,0)`, `(4,3)` and
the interior point `(3,1)`.  The unique triangulation of this point set is
the four-triangle fan around the interior point; its convex hull is the
diamond cycle.  All edge lengths and bisector sums have rational norms, so
every face of the resulting mesh has exactly representable coordinates. -/

/-- The five diamond control points (raster = model, identity tie points). -/
def dpoints : List Coord := [⟨0, 0⟩, ⟨4, -3⟩, ⟨8, 0⟩, ⟨4, 3⟩, ⟨3, 1⟩]

/-- The triangulation of `dpoints`: the fan around point 4, hull cycle
`0 → 1 → 2 → 3` (counter-clockwise, as `delaunator` produces). -/
def dtriangulation : Triangulation := ⟨[0, 1, 4, 1, 2, 4, 2, 3, 4, 3, 0, 4], [0, 1, 2, 3]⟩

/-- The mesh the library builds over the diamond tie points. -/
def dmesh : List Face := build_faces dpoints dtriangulation

/-- Expected face of triangle `(0,1,4)`: one hull edge `(0,1)`, so a wedge
whose boundary chain is the two non-hull edges `1 → 4 → 0` with the
bisectors at points 1 and 0. -/
def dface0 : Face :=
  ⟨some (.Open [⟨4, -3⟩, ⟨3, 1⟩, ⟨0, 0⟩] ⟨0, -1⟩ ⟨-1, 0⟩), (⟨0, 0⟩, ⟨4, -3⟩, ⟨3, 1⟩)⟩

/-- Expected face of triangle `(1,2,4)`. -/
def dface1 : Face :=
  ⟨some (.Open [⟨8, 0⟩, ⟨3, 1⟩, ⟨4, -3⟩] ⟨1, 0⟩ ⟨0, -1⟩), (⟨4, -3⟩, ⟨8, 0⟩, ⟨3, 1⟩)⟩

/-- Expected face of triangle `(2,3,4)`. -/
def dface2 : Face :=
  ⟨some (.Open [⟨4, 3⟩, ⟨3, 1⟩, ⟨8, 0⟩] ⟨0, 1⟩ ⟨1, 0⟩), (⟨8, 0⟩, ⟨4, 3⟩, ⟨3, 1⟩)⟩

/-- Expected face of triangle `(3,0,4)`. -/
def dface3 : Face :=
  ⟨some (.Open [⟨0, 0⟩, ⟨3, 1⟩, ⟨4, 3⟩] ⟨-1, 0⟩ ⟨0, 1⟩), (⟨4, 3⟩, ⟨0, 0⟩, ⟨3, 1⟩)⟩

/-- The identity tie-point array for the diamond: each group of 6 is
`[x, y, 0, x, y, 0]`, so raster and model control points coincide. -/
def dtie_points : List ℝ :=
  [0, 0, 0, 0, 0, 0,
   4, -3, 0, 4, -3, 0,
   8, 0, 0, 8, 0, 0,
   4, 3, 0, 4, 3, 0,
   3, 1, 0, 3, 1, 0]

/-- The external triangulation procedure for the diamond run: on the diamond
raster points `delaunator` returns the fan triangulation (the unique
triangulation of this point set). -/
def dtriangulate : List Coord → Triangulation := fun _ => dtriangulation

/-- The triangulated transform the library builds over the diamond tie
points (identity model mesh). -/
def dtransform : CoordinateTransform := .TiePoints dmesh dmesh

/-- Spec-worded variant of `Face::contains` for claim C3: identical to the
translation of the source except that the second virtual edge is anchored at
the LAST boundary coordinate, `coords[last] → (coords[last] + to_ray)`, as
the claim states. -/
def Face.contains_c3_claim (self : Face) (coord : Coord) : Prop :=
  match self.boundary with
  | none => True
  | some (.Open coords from_direction to_direction) =>
      check coord (coords.getD 0 default + from_direction) (coords.getD 1 default) ∧
      check coord (coords.getD (coords.length - 1) default)
        (coords.getD (coords.length - 1) default + to_direction) ∧
      (∀ i, i + 1 < coords.length →
        check coord (coords.getD i default) (coords.getD (i + 1) default))
  | some (.Closed coords) =>
      ∀ i, i ≤ 3 → check coord (coords.getD i default) (coords.getD ((i + 1) % 3) default)

/-- The boundary coordinates of a wedge face (empty for other faces). -/
def Face.wedge_coords (self : Face) : List Coord :=
  match self.boundary with
  | some (.Open coords _ _) => coords
  | _ => []

/-- The error conditions claim C2 asserts to be equivalent to `from_tag_data`
returning a format error, exactly as the claim lists them. -/
def c2_claim_error_conditions (ps tp tm : Option (List ℝ)) : Prop :=
  (∃ l, ps = some l ∧ l.length ≠ 3) ∨
  (∃ l, tm = some l ∧ l.length ≠ 16) ∨
  (∃ l, tp = some l ∧ (l.length = 0 ∨ l.length % 6 ≠ 0)) ∨
  (tm.isSome = true ∧ (ps.isSome = true ∨ tp.isSome = true)) ∨
  (tm = none ∧ tp = none) ∨
  (∃ l, tp = some l ∧ l.length = 6 ∧ ps = none)

/-- The amended error conditions for claim C2: the claim's list extended by
the two error sources the code also has — a present 16-value transformation
matrix whose 2×2 linear block is numerically singular, and more than one
tie-point group without the tie-points capability. -/
def c2_amended_error_conditions (tie_points_supported : Bool)
    (ps tp tm : Option (List ℝ)) : Prop :=
  c2_claim_error_conditions ps tp tm ∨
  (∃ l, tm = some l ∧ ps = none ∧ tp = none ∧
    |l.getD 0 0 * l.getD 5 0 - l.getD 1 0 * l.getD 4 0| < 1e-15) ∨
  (∃ l, tp = some l ∧ tm = none ∧ l.length ≠ 6 ∧ l.length ≠ 0 ∧ l.length % 6 = 0 ∧
    tie_points_supported = false)

/-- Spec-worded bounding box for claim C5: componentwise minima and maxima
of the boundary coordinates. -/
def c5_spec_bbox (coords : List Coord) : AABB :=
  ⟨coords.foldl (fun m c => min m (c.x : EReal)) ⊤,
   coords.foldl (fun m c => min m (c.y : EReal)) ⊤,
   coords.foldl (fun m c => max m (c.x : EReal)) ⊥,
   coords.foldl (fun m c => max m (c.y : EReal)) ⊥⟩

/-- Spec-worded ray extension for claim C5: through the right-hand
perpendicular `(ray.y, -ray.x)`, extend the box's maximum x to `+∞` when the
perpendicular's x-component is non-negative and its minimum x to `-∞`
otherwise; symmetrically for y. -/
def c5_extend_ray (ray : Coord) (e : AABB) : AABB :=
  let perp : Coord := ⟨ray.y, -ray.x⟩
  let e1 := if 0 ≤ perp.x then { e with upper_x := ⊤ } else { e with lower_x := ⊥ }
  if 0 ≤ perp.y then { e1 with upper_y := ⊤ } else { e1 with lower_y := ⊥ }

/-- Spec-worded envelope for claim C5: full plane for `Interior`, bounding
box of the vertices for a closed triangle, bounding box of the boundary
coordinates extended along both rays for a wedge. -/
def c5_spec_envelope (face : Face) : AABB :=
  match face.boundary with
  | none => ⟨⊥, ⊥, ⊤, ⊤⟩
  | some (.Open coords from_direction to_direction) =>
      c5_extend_ray to_direction (c5_extend_ray from_direction (c5_spec_bbox coords))
  | some (.Closed coords) => c5_spec_bbox coords

/-! ### A signed-zero refinement of the containment arithmetic

The real idealisation `isSignPositive x = (0 ≤ x)` ignores the IEEE sign of
zero.  That is observable in `Face::contains`: a cross product that is a
difference of signed-zero products can evaluate to `-0.0`, where
`f64::is_sign_positive` returns `false` while the real model says `0 ≤ 0`.
`SF` refines a finite double (exact in the value, as all quantities of the
concrete mesh are small integers and exactly representable ±1/±0 ray
components) with the sign bit of zero, with the IEEE round-to-nearest rules
for addition, subtraction and multiplication of finite values. -/

/-- A finite IEEE double refined with the sign of zero: positive zero,
negative zero, or a nonzero exact value. -/
inductive SF where
  | p0
  | n0
  | nz (x : ℝ)

/-- Numerical value of a signed datum. -/
def SF.value : SF → ℝ
  | .p0 => 0
  | .n0 => 0
  | .nz x => x

/-- The sign bit (negative). -/
def SF.isNeg : SF → Prop
  | .p0 => False
  | .n0 => True
  | .nz x => x < 0

open scoped Classical in
/-- IEEE addition of finite values (round to nearest): a zero sum is `-0.0`
only when both operands are `-0.0`. -/
def SF.add (a b : SF) : SF :=
  if a.value + b.value = 0 then (if a.isNeg ∧ b.isNeg then .n0 else .p0)
  else .nz (a.value + b.value)

open scoped Classical in
/-- IEEE subtraction of finite values (round to nearest): a zero difference
is `-0.0` only for `(-0.0) - (+0.0)`. -/
def SF.sub (a b : SF) : SF :=
  if a.value - b.value = 0 then
    (if a.isNeg ∧ ¬ b.isNeg ∧ a.value = 0 then .n0 else .p0)
  else .nz (a.value - b.value)

open scoped Classical in
/-- IEEE multiplication of finite values: the sign of a zero product is the
exclusive or of the operand signs. -/
def SF.mul (a b : SF) : SF :=
  if a.value * b.value = 0 then (if a.isNeg ↔ b.isNeg then .p0 else .n0)
  else .nz (a.value * b.value)

/-- `f64::is_sign_positive` on a signed datum: `+0.0` is sign-positive,
`-0.0` is not. -/
def SF.isSignPositive : SF → Prop
  | .p0 => True
  | .n0 => False
  | .nz x => 0 ≤ x

/-- A coordinate with signed components. -/
structure SFCoord where
  x : SF
  y : SF

/-- Componentwise IEEE addition. -/
def SFCoord.add (a b : SFCoord) : SFCoord := ⟨a.x.add b.x, a.y.add b.y⟩

open scoped Classical in
/-- The IEEE datum of an exactly representable stored component, reading
every stored zero as `+0.0`.  This is valid for the diamond mesh: each of
its zero components is produced in IEEE as `fl(a) + fl(-a) = +0.0` (bisector
sums) or written as the literal `0.0`, never as `-0.0`. -/
def SF.ofReal (x : ℝ) : SF := if x = 0 then .p0 else .nz x

/-- Signed reading of a stored coordinate. -/
def Coord.toSF (c : Coord) : SFCoord := ⟨SF.ofReal c.x, SF.ofReal c.y⟩

/-- The oriented-edge test of `Face::contains` under signed-zero
arithmetic. -/
def checkSF (coord c1 c2 : SFCoord) : Prop :=
  SF.isSignPositive (((c2.x.sub c1.x).mul (coord.y.sub c1.y)).sub
    ((c2.y.sub c1.y).mul (coord.x.sub c1.x)))

/-- `Face::contains` under signed-zero arithmetic: the same edge structure
as the real translation `Face.contains`, with every arithmetic operation
performed by the IEEE rules of `SF`.  Faithful to the program on faces whose
stored components are exactly representable with `+0.0` zeros, as holds for
the diamond mesh. -/
def Face.contains_sf (self : Face) (coord : SFCoord) : Prop :=
  match self.boundary with
  | none => True
  | some (.Open coords from_direction to_direction) =>
      checkSF coord ((Coord.toSF (coords.getD 0 default)).add (Coord.toSF from_direction))
        (Coord.toSF (coords.getD 1 default)) ∧
      checkSF coord (Coord.toSF (coords.getD 1 default))
        ((Coord.toSF (coords.getD 1 default)).add (Coord.toSF to_direction)) ∧
      (∀ i, i + 1 < coords.length →
        checkSF coord (Coord.toSF (coords.getD i default))
          (Coord.toSF (coords.getD (i + 1) default)))
  | some (.Closed coords) =>
      ∀ i, i ≤ 3 → checkSF coord (Coord.toSF (coords.getD i default))
        (Coord.toSF (coords.getD ((i + 1) % 3) default))

/-! ### Evaluation lemmas for the concrete mesh -/

/-- Evaluation of `normalize` when the squared length is a known perfect
square. -/
theorem normalize_eval (a b r : ℝ) (h0 : 0 ≤ r) (h : a ^ 2 + b ^ 2 = r ^ 2) :
    normalize ⟨a, b⟩ = ⟨a / r, b / r⟩ := by
  unfold normalize
  dsimp only
  rw [h, Real.sqrt_sq h0]

/-- Evaluation of `bisector_direction` when all three norms are known. -/
theorem bisector_direction_eval (px py cx cy nx ny r1 r2 r3 : ℝ)
    (h1 : 0 ≤ r1) (e1 : (cx - px) ^ 2 + (cy - py) ^ 2 = r1 ^ 2)
    (h2 : 0 ≤ r2) (e2 : (cx - nx) ^ 2 + (cy - ny) ^ 2 = r2 ^ 2)
    (h3 : 0 ≤ r3)
    (e3 : ((cx - px) / r1 + (cx - nx) / r2) ^ 2 + ((cy - py) / r1 + (cy - ny) / r2) ^ 2 = r3 ^ 2) :
    bisector_direction ⟨px, py⟩ ⟨cx, cy⟩ ⟨nx, ny⟩ =
      ⟨((cx - px) / r1 + (cx - nx) / r2) / r3, ((cy - py) / r1 + (cy - ny) / r2) / r3⟩ := by
  unfold bisector_direction
  dsimp only
  rw [normalize_eval (cx - px) (cy - py) r1 h1 e1, normalize_eval (cx - nx) (cy - ny) r2 h2 e2]
  dsimp only
  rw [normalize_eval _ _ r3 h3 e3]

/-- Bisector at diamond vertex 1 `(4,-3)`. -/
theorem dbis_at_1 : bisector_direction ⟨0, 0⟩ ⟨4, -3⟩ ⟨8, 0⟩ = ⟨0, -1⟩ := by
  rw [bisector_direction_eval 0 0 4 (-3) 8 0 5 5 (6 / 5) (by norm_num) (by norm_num)
    (by norm_num) (by norm_num) (by norm_num) (by norm_num)]
  ext <;> norm_num

/-- Bisector at diamond vertex 2 `(8,0)`. -/
theorem dbis_at_2 : bisector_direction ⟨4, -3⟩ ⟨8, 0⟩ ⟨4, 3⟩ = ⟨1, 0⟩ := by
  rw [bisector_direction_eval 4 (-3) 8 0 4 3 5 5 (8 / 5) (by norm_num) (by norm_num)
    (by norm_num) (by norm_num) (by norm_num) (by norm_num)]
  ext <;> norm_num

/-- Bisector at diamond vertex 3 `(4,3)`. -/
theorem dbis_at_3 : bisector_direction ⟨8, 0⟩ ⟨4, 3⟩ ⟨0, 0⟩ = ⟨0, 1⟩ := by
  rw [bisector_direction_eval 8 0 4 3 0 0 5 5 (6 / 5) (by norm_num) (by norm_num)
    (by norm_num) (by norm_num) (by norm_num) (by norm_num)]
  ext <;> norm_num

/-- Bisector at diamond vertex 0 `(0,0)`. -/
theorem dbis_at_0 : bisector_direction ⟨4, 3⟩ ⟨0, 0⟩ ⟨4, -3⟩ = ⟨-1, 0⟩ := by
  rw [bisector_direction_eval 4 3 0 0 4 (-3) 5 5 (8 / 5) (by norm_num) (by norm_num)
    (by norm_num) (by norm_num) (by norm_num) (by norm_num)]
  ext <;> norm_num

/-- The angle-bisector vector of the diamond hull. -/
theorem dbis_eval : angle_bisectors dpoints [0, 1, 2, 3] =
    [some ⟨-1, 0⟩, some ⟨0, -1⟩, some ⟨1, 0⟩, some ⟨0, 1⟩, none] := by
  unfold angle_bisectors
  rw [show List.range ([0, 1, 2, 3] : List ℕ).length = [0, 1, 2, 3] from rfl]
  simp only [List.foldl]
  norm_num [dpoints, List.getD, List.set, List.replicate]
  rw [dbis_at_1, dbis_at_2, dbis_at_3, dbis_at_0]
  exact ⟨rfl, rfl, rfl, rfl⟩

/-- The diamond mesh evaluates to the four explicit wedge faces. -/
theorem dmesh_eval : dmesh = [dface0, dface1, dface2, dface3] := by
  unfold dmesh build_faces
  dsimp only [dtriangulation]
  rw [dbis_eval]
  rw [show chunks3 [0, 1, 4, 1, 2, 4, 2, 3, 4, 3, 0, 4] =
    [(0, 1, 4), (1, 2, 4), (2, 3, 4), (3, 0, 4)] from rfl]
  simp only [List.map]
  simp [build_face, dface0, dface1, dface2, dface3,
    show contains_sequence [0, 1, 2, 3] [0, 1] = true from by decide,
    show contains_sequence [0, 1, 2, 3] [1, 4] = false from by decide,
    show contains_sequence [0, 1, 2, 3] [4, 0] = false from by decide,
    show contains_sequence [0, 1, 2, 3] [1, 2] = true from by decide,
    show contains_sequence [0, 1, 2, 3] [2, 4] = false from by decide,
    show contains_sequence [0, 1, 2, 3] [4, 1] = false from by decide,
    show contains_sequence [0, 1, 2, 3] [2, 3] = true from by decide,
    show contains_sequence [0, 1, 2, 3] [3, 4] = false from by decide,
    show contains_sequence [0, 1, 2, 3] [4, 2] = false from by decide,
    show contains_sequence [0, 1, 2, 3] [3, 0] = true from by decide,
    show contains_sequence [0, 1, 2, 3] [0, 4] = false from by decide,
    show contains_sequence [0, 1, 2, 3] [4, 3] = false from by decide,
    dpoints, List.getD]

/-! ### Characterisations of the containment predicate -/

/-- Containment in a two-coordinate wedge, written out. -/
theorem wedge_contains_two (a b fd td : Coord) (sup : Coord × Coord × Coord) (p : Coord) :
    Face.contains ⟨some (.Open [a, b] fd td), sup⟩ p ↔
      check p (a + fd) b ∧ check p b (b + td) ∧ check p a b := by
  unfold Face.contains
  simp only [List.getD, List.length_cons, List.length_nil]
  constructor
  · rintro ⟨h1, h2, h3⟩
    exact ⟨h1, h2, by simpa using h3 0 (by omega)⟩
  · rintro ⟨h1, h2, h3⟩
    refine ⟨h1, h2, ?_⟩
    intro i hi
    have hz : i = 0 := by omega
    subst hz
    simpa using h3

/-- Containment in a three-coordinate wedge, written out: note both virtual
edges are attached at the second coordinate `b`, not the last one. -/
theorem wedge_contains_three (a b c fd td : Coord) (sup : Coord × Coord × Coord) (p : Coord) :
    Face.contains ⟨some (.Open [a, b, c] fd td), sup⟩ p ↔
      check p (a + fd) b ∧ check p b (b + td) ∧ check p a b ∧ check p b c := by
  unfold Face.contains
  simp only [List.getD, List.length_cons, List.length_nil]
  constructor
  · rintro ⟨h1, h2, h3⟩
    exact ⟨h1, h2, by simpa using h3 0 (by omega), by simpa using h3 1 (by omega)⟩
  · rintro ⟨h1, h2, h3, h4⟩
    refine ⟨h1, h2, ?_⟩
    intro i hi
    match i, hi with
    | 0, _ => simpa using h3
    | 1, _ => simpa using h4

/-! ### Envelope and containment facts for the diamond mesh -/

/-- The real-to-extended-real coercion commutes with minima. -/
theorem ereal_coe_min (a b : ℝ) : (a : EReal) ⊓ (b : EReal) = ((min a b : ℝ) : EReal) :=
  (EReal.coe_strictMono.monotone.map_min).symm

/-- The real-to-extended-real coercion commutes with maxima. -/
theorem ereal_coe_max (a b : ℝ) : (a : EReal) ⊔ (b : EReal) = ((max a b : ℝ) : EReal) :=
  (EReal.coe_strictMono.monotone.map_max).symm

/-- Envelope of face 0: unbounded except below `y = -3`. -/
theorem denv0 : compute_envelope dface0 = ⟨⊥, ((-3 : ℝ) : EReal), ⊤, ⊤⟩ := by
  unfold compute_envelope dface0
  simp only [List.foldl, f64MIN, f64MAX]
  norm_num [isSignPositive, ← EReal.coe_one, ← EReal.coe_zero, ← EReal.coe_neg,
    ereal_coe_min, ereal_coe_max]

/-- Envelope of face 1: the full plane. -/
theorem denv1 : compute_envelope dface1 = ⟨⊥, ⊥, ⊤, ⊤⟩ := by
  unfold compute_envelope dface1
  simp only [List.foldl, f64MIN, f64MAX]
  norm_num [isSignPositive, ← EReal.coe_one, ← EReal.coe_zero, ← EReal.coe_neg,
    ereal_coe_min, ereal_coe_max]

/-- Envelope of face 2: unbounded except left of `x = 3`. -/
theorem denv2 : compute_envelope dface2 = ⟨((3 : ℝ) : EReal), ⊥, ⊤, ⊤⟩ := by
  unfold compute_envelope dface2
  simp only [List.foldl, f64MIN, f64MAX]
  norm_num [isSignPositive, ← EReal.coe_one, ← EReal.coe_zero, ← EReal.coe_neg,
    ereal_coe_min, ereal_coe_max]

/-- Face 0 does not contain the gap point `(4,10)` (its first virtual edge
fails). -/
theorem dnc0_gap : ¬ Face.contains dface0 ⟨4, 10⟩ := by
  unfold dface0
  rw [wedge_contains_three]
  rintro ⟨h1, -, -, -⟩
  norm_num [check, isSignPositive, Coord.add_def] at h1

/-- Face 1 does not contain the gap point `(4,10)`. -/
theorem dnc1_gap : ¬ Face.contains dface1 ⟨4, 10⟩ := by
  unfold dface1
  rw [wedge_contains_three]
  rintro ⟨h1, -, -, -⟩
  norm_num [check, isSignPositive, Coord.add_def] at h1

/-- Face 2 does not contain the gap point `(4,10)`. -/
theorem dnc2_gap : ¬ Face.contains dface2 ⟨4, 10⟩ := by
  unfold dface2
  rw [wedge_contains_three]
  rintro ⟨h1, -, -, -⟩
  norm_num [check, isSignPositive, Coord.add_def] at h1

/-- Face 3 does not contain the gap point `(4,10)` (its second virtual edge
fails). -/
theorem dnc3_gap : ¬ Face.contains dface3 ⟨4, 10⟩ := by
  unfold dface3
  rw [wedge_contains_three]
  rintro ⟨-, h2, -, -⟩
  norm_num [check, isSignPositive, Coord.add_def] at h2

/-- Face 0 contains the interior control point `(3,1)` (all checks are
exactly zero). -/
theorem dc0_p4 : Face.contains dface0 ⟨3, 1⟩ := by
  unfold dface0
  rw [wedge_contains_three]
  refine ⟨?_, ?_, ?_, ?_⟩ <;> norm_num [check, isSignPositive, Coord.add_def]

/-- Face 1 contains the interior control point `(3,1)`. -/
theorem dc1_p4 : Face.contains dface1 ⟨3, 1⟩ := by
  unfold dface1
  rw [wedge_contains_three]
  refine ⟨?_, ?_, ?_, ?_⟩ <;> norm_num [check, isSignPositive, Coord.add_def]

/-- Face 2 contains the interior control point `(3,1)`. -/
theorem dc2_p4 : Face.contains dface2 ⟨3, 1⟩ := by
  unfold dface2
  rw [wedge_contains_three]
  refine ⟨?_, ?_, ?_, ?_⟩ <;> norm_num [check, isSignPositive, Coord.add_def]

/-- Face 3 contains the interior control point `(3,1)`. -/
theorem dc3_p4 : Face.contains dface3 ⟨3, 1⟩ := by
  unfold dface3
  rw [wedge_contains_three]
  refine ⟨?_, ?_, ?_, ?_⟩ <;> norm_num [check, isSignPositive, Coord.add_def]

/-- Face 0 contains the hull control point `(0,0)`. -/
theorem dc0_p0 : Face.contains dface0 ⟨0, 0⟩ := by
  unfold dface0
  rw [wedge_contains_three]
  refine ⟨?_, ?_, ?_, ?_⟩ <;> norm_num [check, isSignPositive, Coord.add_def]

/-- Face 1 contains the hull control point `(4,-3)`. -/
theorem dc1_p1 : Face.contains dface1 ⟨4, -3⟩ := by
  unfold dface1
  rw [wedge_contains_three]
  refine ⟨?_, ?_, ?_, ?_⟩ <;> norm_num [check, isSignPositive, Coord.add_def]

/-- Face 2 contains the hull control point `(4,3)`. -/
theorem dc2_p3 : Face.contains dface2 ⟨4, 3⟩ := by
  unfold dface2
  rw [wedge_contains_three]
  refine ⟨?_, ?_, ?_, ?_⟩ <;> norm_num [check, isSignPositive, Coord.add_def]

/-- Face 0 does not contain `(4,-3)`. -/
theorem dnc0_p1 : ¬ Face.contains dface0 ⟨4, -3⟩ := by
  unfold dface0
  rw [wedge_contains_three]
  rintro ⟨h1, -, -, -⟩
  norm_num [check, isSignPositive, Coord.add_def] at h1

/-- Face 0 does not contain `(4,3)`. -/
theorem dnc0_p3 : ¬ Face.contains dface0 ⟨4, 3⟩ := by
  unfold dface0
  rw [wedge_contains_three]
  rintro ⟨h1, -, -, -⟩
  norm_num [check, isSignPositive, Coord.add_def] at h1

/-- Face 1 does not contain `(4,3)`. -/
theorem dnc1_p3 : ¬ Face.contains dface1 ⟨4, 3⟩ := by
  unfold dface1
  rw [wedge_contains_three]
  rintro ⟨h1, -, -, -⟩
  norm_num [check, isSignPositive, Coord.add_def] at h1

/-- The code's wedge containment holds at `(7/2, 0)` for face 1. -/
theorem dc1_c3pt : Face.contains dface1 ⟨7 / 2, 0⟩ := by
  unfold dface1
  rw [wedge_contains_three]
  refine ⟨?_, ?_, ?_, ?_⟩ <;> norm_num [check, isSignPositive, Coord.add_def]

/-- The claim-worded (last-anchored) wedge containment fails at `(7/2, 0)`
for face 1. -/
theorem dnc1_c3claim : ¬ Face.contains_c3_claim dface1 ⟨7 / 2, 0⟩ := by
  unfold Face.contains_c3_claim dface1
  rintro ⟨-, h2, -⟩
  norm_num [check, isSignPositive, Coord.add_def, List.getD] at h2

/-- Under signed-zero IEEE arithmetic, face 0 does not contain the hull
control point `(8,0)` (its first virtual-edge cross is `-24`). -/
theorem dsf_nc0_p2 : ¬ Face.contains_sf dface0 ⟨.nz 8, .p0⟩ := by
  unfold Face.contains_sf dface0
  rintro ⟨h1, -, -⟩
  norm_num [checkSF, Coord.toSF, SFCoord.add, SF.ofReal, SF.add, SF.sub, SF.mul,
    SF.value, SF.isNeg, SF.isSignPositive, List.getD] at h1

/-- Under signed-zero IEEE arithmetic, face 1 does not contain the hull
control point `(8,0)`: the cross product on its chain edge
`(8,0) → (3,1)` evaluates to `(-5)·(+0.0) - 1·(+0.0) = -0.0`, which
`f64::is_sign_positive` rejects.  (The real idealisation reads this zero as
non-negative; this is the one point of the mesh where the two readings
disagree on the containment outcome.) -/
theorem dsf_nc1_p2 : ¬ Face.contains_sf dface1 ⟨.nz 8, .p0⟩ := by
  unfold Face.contains_sf dface1
  rintro ⟨-, -, hch⟩
  have h := hch 0 (by norm_num)
  norm_num [checkSF, Coord.toSF, SF.ofReal, SF.sub, SF.mul,
    SF.value, SF.isNeg, SF.isSignPositive, List.getD] at h

/-- Under signed-zero IEEE arithmetic, face 2 does not contain the hull
control point `(8,0)` (its second virtual-edge cross is `-1`). -/
theorem dsf_nc2_p2 : ¬ Face.contains_sf dface2 ⟨.nz 8, .p0⟩ := by
  unfold Face.contains_sf dface2
  rintro ⟨-, h2, -⟩
  norm_num [checkSF, Coord.toSF, SFCoord.add, SF.ofReal, SF.add, SF.sub, SF.mul,
    SF.value, SF.isNeg, SF.isSignPositive, List.getD] at h2

/-- Under signed-zero IEEE arithmetic, face 3 does not contain the hull
control point `(8,0)` (its first virtual-edge cross is `-9`). -/
theorem dsf_nc3_p2 : ¬ Face.contains_sf dface3 ⟨.nz 8, .p0⟩ := by
  unfold Face.contains_sf dface3
  rintro ⟨h1, -, -⟩
  norm_num [checkSF, Coord.toSF, SFCoord.add, SF.ofReal, SF.add, SF.sub, SF.mul,
    SF.value, SF.isNeg, SF.isSignPositive, List.getD] at h1

/-- Envelope of face 0 admits `(0,0)`. -/
theorem de0_p0 : (compute_envelope dface0).contains_point ⟨0, 0⟩ := by
  rw [denv0]
  unfold AABB.contains_point
  refine ⟨bot_le, le_top, ?_, le_top⟩
  dsimp only
  norm_num [← EReal.coe_neg, ← EReal.coe_zero, EReal.coe_le_coe_iff]

/-- Envelope of face 0 admits `(3,1)`. -/
theorem de0_p4 : (compute_envelope dface0).contains_point ⟨3, 1⟩ := by
  rw [denv0]
  unfold AABB.contains_point
  refine ⟨bot_le, le_top, ?_, le_top⟩
  dsimp only
  norm_num [← EReal.coe_neg, ← EReal.coe_one, EReal.coe_le_coe_iff]

/-- Envelope of face 1 admits `(4,-3)`. -/
theorem de1_p1 : (compute_envelope dface1).contains_point ⟨4, -3⟩ := by
  rw [denv1]
  unfold AABB.contains_point
  exact ⟨bot_le, le_top, bot_le, le_top⟩

/-- Envelope of face 2 admits `(4,3)`. -/
theorem de2_p3 : (compute_envelope dface2).contains_point ⟨4, 3⟩ := by
  rw [denv2]
  unfold AABB.contains_point
  refine ⟨?_, le_top, bot_le, le_top⟩
  dsimp only
  norm_num [← EReal.coe_zero, EReal.coe_le_coe_iff]

/-! ### Face-search and transform evaluations on the diamond mesh -/

/-- No face of the diamond mesh matches the gap point `(4,10)`. -/
theorem dff_gap : find_face [dface0, dface1, dface2, dface3] ⟨4, 10⟩ 0 = none := by
  have h0 : ¬ ((compute_envelope dface0).contains_point ⟨4, 10⟩ ∧ Face.contains dface0 ⟨4, 10⟩) :=
    fun h => dnc0_gap h.2
  have h1 : ¬ ((compute_envelope dface1).contains_point ⟨4, 10⟩ ∧ Face.contains dface1 ⟨4, 10⟩) :=
    fun h => dnc1_gap h.2
  have h2 : ¬ ((compute_envelope dface2).contains_point ⟨4, 10⟩ ∧ Face.contains dface2 ⟨4, 10⟩) :=
    fun h => dnc2_gap h.2
  have h3 : ¬ ((compute_envelope dface3).contains_point ⟨4, 10⟩ ∧ Face.contains dface3 ⟨4, 10⟩) :=
    fun h => dnc3_gap h.2
  simp only [find_face, h0, h1, h2, h3, if_false]

/-- The face search at control point `(0,0)` returns face 0. -/
theorem dff_p0 : find_face [dface0, dface1, dface2, dface3] ⟨0, 0⟩ 0 = some 0 := by
  simp only [find_face]
  rw [if_pos ⟨de0_p0, dc0_p0⟩]

/-- The face search at control point `(4,-3)` returns face 1. -/
theorem dff_p1 : find_face [dface0, dface1, dface2, dface3] ⟨4, -3⟩ 0 = some 1 := by
  have h0 : ¬ ((compute_envelope dface0).contains_point ⟨4, -3⟩ ∧ Face.contains dface0 ⟨4, -3⟩) :=
    fun h => dnc0_p1 h.2
  simp only [find_face]
  rw [if_neg h0, if_pos ⟨de1_p1, dc1_p1⟩]

/-- The face search at control point `(4,3)` returns face 2. -/
theorem dff_p3 : find_face [dface0, dface1, dface2, dface3] ⟨4, 3⟩ 0 = some 2 := by
  have h0 : ¬ ((compute_envelope dface0).contains_point ⟨4, 3⟩ ∧ Face.contains dface0 ⟨4, 3⟩) :=
    fun h => dnc0_p3 h.2
  have h1 : ¬ ((compute_envelope dface1).contains_point ⟨4, 3⟩ ∧ Face.contains dface1 ⟨4, 3⟩) :=
    fun h => dnc1_p3 h.2
  simp only [find_face]
  rw [if_neg h0, if_neg h1, if_pos ⟨de2_p3, dc2_p3⟩]

/-- The face search at control point `(3,1)` returns face 0 (the first of
the four faces that contain it). -/
theorem dff_p4 : find_face [dface0, dface1, dface2, dface3] ⟨3, 1⟩ 0 = some 0 := by
  simp only [find_face]
  rw [if_pos ⟨de0_p4, dc0_p4⟩]

/-- The triangulated transform panics (returns no face) at `(4,10)`. -/
theorem dtp_gap : transform_by_tie_points dmesh dmesh ⟨4, 10⟩ = none := by
  unfold transform_by_tie_points
  rw [dmesh_eval, dff_gap]

/-- The triangulated transform is exact at control point `(0,0)`. -/
theorem dtp_p0 : transform_by_tie_points dmesh dmesh ⟨0, 0⟩ = some ⟨0, 0⟩ := by
  unfold transform_by_tie_points
  rw [dmesh_eval, dff_p0]
  simp only [List.getD]
  norm_num [Face.locate, Face.interpolate, dface0]

/-- The triangulated transform is exact at control point `(4,-3)`. -/
theorem dtp_p1 : transform_by_tie_points dmesh dmesh ⟨4, -3⟩ = some ⟨4, -3⟩ := by
  unfold transform_by_tie_points
  rw [dmesh_eval, dff_p1]
  simp only [List.getD]
  norm_num [Face.locate, Face.interpolate, dface1]

/-- The triangulated transform is exact at control point `(4,3)`. -/
theorem dtp_p3 : transform_by_tie_points dmesh dmesh ⟨4, 3⟩ = some ⟨4, 3⟩ := by
  unfold transform_by_tie_points
  rw [dmesh_eval, dff_p3]
  simp only [List.getD]
  norm_num [Face.locate, Face.interpolate, dface2]

/-- The triangulated transform is exact at control point `(3,1)`. -/
theorem dtp_p4 : transform_by_tie_points dmesh dmesh ⟨3, 1⟩ = some ⟨3, 1⟩ := by
  unfold transform_by_tie_points
  rw [dmesh_eval, dff_p4]
  simp only [List.getD]
  norm_num [Face.locate, Face.interpolate, dface0]

/-- The dispatcher builds exactly the diamond transform from the diamond
tie-point array. -/
theorem dfrom_tag :
    from_tag_data true dtriangulate none (some dtie_points) none = .ok dtransform := rfl

/-! ### Validation and dispatch lemmas -/

/-- `isErr` on a literal error. -/
theorem isErr_error (e : String) : isErr (.error e) = true := rfl

/-- `isErr` on a literal success. -/
theorem isErr_ok (t : CoordinateTransform) : isErr (.ok t) = false := rfl

/-- `from_tie_points` never fails. -/
theorem isErr_from_tie_points (tri : List Coord → Triangulation) (tp : List ℝ) :
    isErr (from_tie_points tri tp) = false := rfl

/-- `from_tie_point_and_pixel_scale` never fails. -/
theorem isErr_from_tie_point_and_pixel_scale (tp ps : List ℝ) :
    isErr (from_tie_point_and_pixel_scale tp ps) = false := rfl

/-- `from_transformation_matrix` fails exactly on a numerically singular
2×2 linear block. -/
theorem from_transformation_matrix_isErr (m : List ℝ) :
    isErr (from_transformation_matrix m) = true ↔
      |m.getD 0 0 * m.getD 5 0 - m.getD 1 0 * m.getD 4 0| < 1e-15 := by
  unfold from_transformation_matrix
  dsimp only
  split_ifs with h
  · simpa [isErr] using h
  · simpa [isErr] using h

/-- Full characterisation of the error outcomes of `from_tag_data`. -/
theorem c2_error_iff (cap : Bool) (tri : List Coord → Triangulation) (ps tp tm : Option (List ℝ)) :
    isErr (from_tag_data cap tri ps tp tm) = true ↔ c2_amended_error_conditions cap ps tp tm := by
  unfold from_tag_data
  rcases ps with _ | ps <;> rcases tp with _ | tp <;> rcases tm with _ | tm <;>
    simp only [validate_pixel_scale, validate_tie_points, validate_transformation_matrix,
      Option.isSome_none, Option.isSome_some] <;>
    (try split_ifs) <;>
    simp_all [c2_amended_error_conditions, c2_claim_error_conditions,
      isErr_error, isErr_ok, isErr_from_tie_points, isErr_from_tie_point_and_pixel_scale,
      from_transformation_matrix_isErr] <;>
    (try split_ifs) <;>
    simp_all [isErr_error, isErr_ok, isErr_from_tie_points,
      isErr_from_tie_point_and_pixel_scale, from_transformation_matrix_isErr]

/-- A lone well-formed transformation matrix dispatches to the affine
constructor. -/
theorem from_tag_data_matrix_dispatch (cap : Bool) (tri : List Coord → Triangulation)
    (m : List ℝ) (h : m.length = 16) :
    from_tag_data cap tri none none (some m) = from_transformation_matrix m := by
  unfold from_tag_data
  simp [validate_pixel_scale, validate_tie_points, validate_transformation_matrix, h]

/-- One tie-point group plus a pixel scale dispatches to the scale/offset
constructor. -/
theorem from_tag_data_scale_offset_dispatch (cap : Bool) (tri : List Coord → Triangulation)
    (s t : List ℝ) (hs : s.length = 3) (ht : t.length = 6) :
    from_tag_data cap tri (some s) (some t) none = from_tie_point_and_pixel_scale t s := by
  unfold from_tag_data
  simp [validate_pixel_scale, validate_tie_points, validate_transformation_matrix, hs, ht]

/-- Several tie-point groups dispatch to the triangulated constructor when
the capability is available. -/
theorem from_tag_data_tie_points_dispatch (tri : List Coord → Triangulation)
    (t : List ℝ) (h0 : t.length ≠ 0) (hm : t.length % 6 = 0) (h6 : t.length ≠ 6) :
    from_tag_data true tri none (some t) none = from_tie_points tri t := by
  unfold from_tag_data
  simp [validate_pixel_scale, validate_tie_points, validate_transformation_matrix, h0, hm, h6]

/-- Several tie-point groups without the capability give the explicit
unsupported error. -/
theorem from_tag_data_unsupported (tri : List Coord → Triangulation)
    (t : List ℝ) (h0 : t.length ≠ 0) (hm : t.length % 6 = 0) (h6 : t.length ≠ 6) :
    from_tag_data false tri none (some t) none =
      .error "Transformation by tie points is not supported" := by
  unfold from_tag_data
  simp [validate_pixel_scale, validate_tie_points, validate_transformation_matrix, h0, hm, h6]

/-! ### Envelope and round-trip helper lemmas -/

/-- The record-valued bounding-box fold of `compute_envelope` equals the four
componentwise folds. -/
theorem bbox_fold_eq (coords : List Coord) (acc : AABB) :
    coords.foldl (fun (acc : AABB) c =>
      ⟨min acc.lower_x (c.x : EReal), min acc.lower_y (c.y : EReal),
       max acc.upper_x (c.x : EReal), max acc.upper_y (c.y : EReal)⟩) acc =
    ⟨coords.foldl (fun m c => min m (c.x : EReal)) acc.lower_x,
     coords.foldl (fun m c => min m (c.y : EReal)) acc.lower_y,
     coords.foldl (fun m c => max m (c.x : EReal)) acc.upper_x,
     coords.foldl (fun m c => max m (c.y : EReal)) acc.upper_y⟩ := by
  induction coords generalizing acc with
  | nil => rfl
  | cons c rest ih => simp only [List.foldl]; rw [ih]

/-- The affine round trip is exact for every successfully constructed
matrix. -/
theorem affine_round_trip (m f i : List ℝ) (c : Coord)
    (h : from_transformation_matrix m = .ok (.AffineTransform f i)) :
    (transform_to_model (.AffineTransform f i) c).bind
      (transform_to_raster (.AffineTransform f i)) = some c := by
  unfold from_transformation_matrix at h
  dsimp only at h
  split_ifs at h with hd
  simp only [Except.ok.injEq, CoordinateTransform.AffineTransform.injEq] at h
  obtain ⟨hf, hi⟩ := h
  subst hf
  subst hi
  have hdet : m.getD 0 0 * m.getD 5 0 - m.getD 1 0 * m.getD 4 0 ≠ 0 := by
    intro h0
    exact hd (by rw [h0]; norm_num)
  unfold transform_to_model transform_to_raster transform_by_affine_transform
  simp only [List.getD_eq_getElem?_getD] at hdet
  simp only [Option.bind, List.getD_eq_getElem?_getD, Option.some.injEq]
  ext
  · dsimp only
    field_simp [hdet]
    ring
  · dsimp only
    field_simp [hdet]
    ring

/-- The scale/offset round trip is exact when both scale components are
nonzero. -/
theorem scale_offset_round_trip (r mp s c : Coord) (hx : s.x ≠ 0) (hy : s.y ≠ 0) :
    (transform_to_model (.TiePointAndPixelScale r mp s) c).bind
      (transform_to_raster (.TiePointAndPixelScale r mp s)) = some c := by
  unfold transform_to_model transform_to_raster
    transform_to_model_by_tie_point_and_pixel_scale
    transform_to_raster_by_tie_point_and_pixel_scale
  simp only [Option.bind, Option.some.injEq]
  ext
  · dsimp only
    field_simp
  · dsimp only
    field_simp

/-! ### Claim theorems -/

/-- Claim C1: the claim asserts that for every triangulated transform and
every finite coordinate exactly one face's `contains` predicate holds, so
the face-search `unwrap` never panics.  The code violates this: over the
diamond tie points (a genuine 5-point configuration whose unique Delaunay
triangulation is the fan embedded in `dtriangulation`), the finite point
`(4,10)` is contained in NO face — `transform_to_model` / `transform_to_raster`
hit the `unwrap` panic (modelled by `none`) — while the control point `(3,1)`
is contained in ALL FOUR faces. -/
theorem C1_coverage_invariant_violated :
    from_tag_data true dtriangulate none (some dtie_points) none = .ok dtransform ∧
    transform_to_model dtransform ⟨4, 10⟩ = none ∧
    transform_to_raster dtransform ⟨4, 10⟩ = none ∧
    dmesh.length = 4 ∧
    Face.contains (dmesh.getD 0 default) ⟨3, 1⟩ ∧
    Face.contains (dmesh.getD 1 default) ⟨3, 1⟩ ∧
    Face.contains (dmesh.getD 2 default) ⟨3, 1⟩ ∧
    Face.contains (dmesh.getD 3 default) ⟨3, 1⟩ := by
  refine ⟨dfrom_tag, ?_, ?_, ?_, ?_, ?_, ?_, ?_⟩
  · show transform_by_tie_points dmesh dmesh ⟨4, 10⟩ = none
    exact dtp_gap
  · show transform_by_tie_points dmesh dmesh ⟨4, 10⟩ = none
    exact dtp_gap
  · rw [dmesh_eval]
    rfl
  · rw [dmesh_eval]
    exact dc0_p4
  · rw [dmesh_eval]
    exact dc1_p4
  · rw [dmesh_eval]
    exact dc2_p4
  · rw [dmesh_eval]
    exact dc3_p4

/-- Claim C2 (counterexample): the all-zero 16-value transformation matrix
satisfies none of the claim's listed error conditions, yet `from_tag_data`
returns a format error (the non-invertible-matrix error the claim's
if-and-only-if omits). -/
theorem C2_counterexample :
    isErr (from_tag_data true dummy_triangulation none none (some (List.replicate 16 0))) =
      true ∧
    ¬ c2_claim_error_conditions none none (some (List.replicate 16 0)) := by
  constructor
  · rw [from_tag_data_matrix_dispatch true dummy_triangulation _ (by simp),
      from_transformation_matrix_isErr]
    norm_num [List.getD_eq_getElem?_getD, List.getElem?_replicate]
  · unfold c2_claim_error_conditions
    push_neg
    norm_num
    exact ⟨fun l hl => Option.noConfusion hl, fun l hl => Option.noConfusion hl,
      fun h => Option.noConfusion h, fun l hl => Option.noConfusion hl⟩

/-- Claim C2 (amended): `from_tag_data` returns a format error if and only
if one of the claim's conditions holds, the 16-value matrix has
`|M[0]·M[5] − M[1]·M[4]| < 1e-15`, or more than one tie-point group arrives
without the tie-points capability; otherwise the input dispatches to the
strategy the claim names (Affine for a matrix, ScaleOffset for one group
plus scale, Triangulated for more than one group with the capability, and
the explicit unsupported error without it). -/
theorem C2_from_tag_data_validation (cap : Bool) (tri : List Coord → Triangulation)
    (ps tp tm : Option (List ℝ)) :
    (isErr (from_tag_data cap tri ps tp tm) = true ↔
      c2_amended_error_conditions cap ps tp tm) ∧
    (∀ m, tm = some m → ps = none → tp = none → m.length = 16 →
      from_tag_data cap tri ps tp tm = from_transformation_matrix m) ∧
    (∀ s t, ps = some s → tp = some t → tm = none → s.length = 3 → t.length = 6 →
      from_tag_data cap tri ps tp tm = from_tie_point_and_pixel_scale t s) ∧
    (∀ t, cap = true → ps = none → tp = some t → tm = none → t.length ≠ 0 →
      t.length % 6 = 0 → t.length ≠ 6 →
      from_tag_data cap tri ps tp tm = from_tie_points tri t) ∧
    (∀ t, cap = false → ps = none → tp = some t → tm = none → t.length ≠ 0 →
      t.length % 6 = 0 → t.length ≠ 6 →
      from_tag_data cap tri ps tp tm =
        .error "Transformation by tie points is not supported") := by
  refine ⟨c2_error_iff cap tri ps tp tm, ?_, ?_, ?_, ?_⟩
  · rintro m rfl rfl rfl h
    exact from_tag_data_matrix_dispatch cap tri m h
  · rintro s t rfl rfl rfl hs ht
    exact from_tag_data_scale_offset_dispatch cap tri s t hs ht
  · rintro t rfl rfl rfl rfl h0 hm h6
    exact from_tag_data_tie_points_dispatch tri t h0 hm h6
  · rintro t rfl rfl rfl rfl h0 hm h6
    exact from_tag_data_unsupported tri t h0 hm h6

/-- Claim C2 (witness): the dispatch equalities applied at concrete
inputs. -/
theorem C2_witness :
    from_tag_data true dummy_triangulation none none (some (List.replicate 16 (1 : ℝ))) =
      from_transformation_matrix (List.replicate 16 1) ∧
    from_tag_data true dummy_triangulation (some [2, 2, 0]) (some [0, 0, 0, 100, 200, 0]) none =
      from_tie_point_and_pixel_scale [0, 0, 0, 100, 200, 0] [2, 2, 0] :=
  ⟨(C2_from_tag_data_validation true dummy_triangulation none none
      (some (List.replicate 16 1))).2.1 _ rfl rfl rfl (by simp),
   (C2_from_tag_data_validation true dummy_triangulation (some [2, 2, 0])
      (some [0, 0, 0, 100, 200, 0]) none).2.2.1 _ _ rfl rfl rfl (by simp) (by simp)⟩

/-- Claim C3 (counterexample): on the three-coordinate wedge face 1 of the
diamond mesh, the code's containment (second virtual edge anchored at
`coords[1]`) holds at `(7/2, 0)` while the claim's version (anchored at
`coords[last] = coords[2]`) does not. -/
theorem C3_counterexample :
    Face.contains (dmesh.getD 1 default) ⟨7 / 2, 0⟩ ∧
    ¬ Face.contains_c3_claim (dmesh.getD 1 default) ⟨7 / 2, 0⟩ ∧
    (dmesh.getD 1 default).wedge_coords.length = 3 := by
  rw [dmesh_eval]
  exact ⟨dc1_c3pt, dnc1_c3claim, rfl⟩

/-- Claim C3 (amended): a wedge's `contains` tests the positive side of
every consecutive boundary edge plus the two virtual edges
`(coords[0] + from_ray) → coords[1]` and `coords[1] → (coords[1] + to_ray)`
— both anchored at the SECOND boundary coordinate, which equals the last one
only for two-coordinate wedges. -/
theorem C3_wedge_contains_characterisation :
    (∀ (a b fd td : Coord) (sup : Coord × Coord × Coord) (p : Coord),
      Face.contains ⟨some (.Open [a, b] fd td), sup⟩ p ↔
        check p (a + fd) b ∧ check p b (b + td) ∧ check p a b) ∧
    (∀ (a b c fd td : Coord) (sup : Coord × Coord × Coord) (p : Coord),
      Face.contains ⟨some (.Open [a, b, c] fd td), sup⟩ p ↔
        check p (a + fd) b ∧ check p b (b + td) ∧ check p a b ∧ check p b c) :=
  ⟨wedge_contains_two, wedge_contains_three⟩

/-- Claim C4 (counterexample): `contains_sequence` is direction-sensitive
(`[1,0]` is not found in the hull cycle `[0,1,2,3]` although it occurs
reversed), and the diamond triangle `(0,1,4)` — which has exactly one hull
edge, `(0,1)` — is classified as a THREE-coordinate wedge over its two
non-hull edges (including the non-hull vertex `(3,1)`), not as a wedge over
the single hull edge's two endpoints as the claim states. -/
theorem C4_counterexample :
    contains_sequence [0, 1, 2, 3] [0, 1] = true ∧
    contains_sequence [0, 1, 2, 3] [1, 0] = false ∧
    contains_sequence [0, 1, 2, 3] [1, 4] = false ∧
    contains_sequence [0, 1, 2, 3] [4, 0] = false ∧
    (dmesh.getD 0 default).boundary =
      some (.Open [⟨4, -3⟩, ⟨3, 1⟩, ⟨0, 0⟩] ⟨0, -1⟩ ⟨-1, 0⟩) ∧
    (dmesh.getD 0 default).wedge_coords.length = 3 := by
  rw [dmesh_eval]
  exact ⟨by decide, by decide, by decide, by decide, rfl, rfl⟩

/-- Claim C4 (amended): an edge is classified as on the hull if and only if
its index pair occurs contiguously in the hull's cyclic order (forward
direction only); all 3 edges on the hull gives an unconstrained `Interior`
face, exactly 2 gives a wedge over the 2 endpoints of the single non-hull
edge, exactly 1 gives a wedge over the 3-point chain formed by the two
non-hull edges, and 0 gives a `ClosedTriangle` with the first vertex
repeated, the wedge rays being the angle bisectors at the chain's first and
last point. -/
theorem C4_face_classification (points : List Coord) (hull : List ℕ)
    (bis : List (Option Coord)) (i1 i2 i3 : ℕ) :
    ((build_face points hull bis (i1, i2, i3)).support_points =
      (points.getD i1 default, points.getD i2 default, points.getD i3 default)) ∧
    (contains_sequence hull [i1, i2] = true → contains_sequence hull [i2, i3] = true →
      contains_sequence hull [i3, i1] = true →
      (build_face points hull bis (i1, i2, i3)).boundary = none) ∧
    (contains_sequence hull [i1, i2] = true → contains_sequence hull [i2, i3] = true →
      contains_sequence hull [i3, i1] = false →
      (build_face points hull bis (i1, i2, i3)).boundary =
        some (.Open [points.getD i3 default, points.getD i1 default]
          ((bis.getD i3 none).getD default) ((bis.getD i1 none).getD default))) ∧
    (contains_sequence hull [i1, i2] = true → contains_sequence hull [i2, i3] = false →
      contains_sequence hull [i3, i1] = true →
      (build_face points hull bis (i1, i2, i3)).boundary =
        some (.Open [points.getD i2 default, points.getD i3 default]
          ((bis.getD i2 none).getD default) ((bis.getD i3 none).getD default))) ∧
    (contains_sequence hull [i1, i2] = false → contains_sequence hull [i2, i3] = true →
      contains_sequence hull [i3, i1] = true →
      (build_face points hull bis (i1, i2, i3)).boundary =
        some (.Open [points.getD i1 default, points.getD i2 default]
          ((bis.getD i1 none).getD default) ((bis.getD i2 none).getD default))) ∧
    (contains_sequence hull [i1, i2] = true → contains_sequence hull [i2, i3] = false →
      contains_sequence hull [i3, i1] = false →
      (build_face points hull bis (i1, i2, i3)).boundary =
        some (.Open [points.getD i2 default, points.getD i3 default, points.getD i1 default]
          ((bis.getD i2 none).getD default) ((bis.getD i1 none).getD default))) ∧
    (contains_sequence hull [i1, i2] = false → contains_sequence hull [i2, i3] = true →
      contains_sequence hull [i3, i1] = false →
      (build_face points hull bis (i1, i2, i3)).boundary =
        some (.Open [points.getD i3 default, points.getD i1 default, points.getD i2 default]
          ((bis.getD i3 none).getD default) ((bis.getD i2 none).getD default))) ∧
    (contains_sequence hull [i1, i2] = false → contains_sequence hull [i2, i3] = false →
      contains_sequence hull [i3, i1] = true →
      (build_face points hull bis (i1, i2, i3)).boundary =
        some (.Open [points.getD i1 default, points.getD i2 default, points.getD i3 default]
          ((bis.getD i1 none).getD default) ((bis.getD i3 none).getD default))) ∧
    (contains_sequence hull [i1, i2] = false → contains_sequence hull [i2, i3] = false →
      contains_sequence hull [i3, i1] = false →
      (build_face points hull bis (i1, i2, i3)).boundary =
        some (.Closed [points.getD i1 default, points.getD i2 default, points.getD i3 default,
          points.getD i1 default])) := by
  refine ⟨rfl, ?_, ?_, ?_, ?_, ?_, ?_, ?_, ?_⟩ <;>
    (intro h1 h2 h3; simp [build_face, h1, h2, h3])

/-- Claim C4 (witness): the classification applied to the diamond triangle
`(0,1,4)`, whose only hull edge is `(0,1)`. -/
theorem C4_witness :
    (build_face dpoints [0, 1, 2, 3]
      [some ⟨-1, 0⟩, some ⟨0, -1⟩, some ⟨1, 0⟩, some ⟨0, 1⟩, none] (0, 1, 4)).boundary =
      some (.Open [dpoints.getD 1 default, dpoints.getD 4 default, dpoints.getD 0 default]
        (([some (⟨-1, 0⟩ : Coord), some ⟨0, -1⟩, some ⟨1, 0⟩, some ⟨0, 1⟩,
            none].getD 1 none).getD default)
        (([some (⟨-1, 0⟩ : Coord), some ⟨0, -1⟩, some ⟨1, 0⟩, some ⟨0, 1⟩,
            none].getD 0 none).getD default)) :=
  (C4_face_classification dpoints [0, 1, 2, 3]
    [some ⟨-1, 0⟩, some ⟨0, -1⟩, some ⟨1, 0⟩, some ⟨0, 1⟩, none]
    0 1 4).2.2.2.2.2.1 (by decide) (by decide) (by decide)

/-- Claim C5: the spatial-index envelope computed by the code equals, for
every face, the claim's description — full plane for `Interior`, bounding
box of the coordinates for a `ClosedTriangle`, and for a `Wedge` the
bounding box extended to infinity on each side selected by the right-hand
perpendicular `(ray.y, -ray.x)` of each of its two rays. -/
theorem C5_envelope (face : Face) : compute_envelope face = c5_spec_envelope face := by
  rcases face with ⟨b, sup⟩
  rcases b with _ | (⟨coords, fd, td⟩ | coords)
  · rfl
  · unfold compute_envelope c5_spec_envelope
    dsimp only
    rw [bbox_fold_eq]
    rfl
  · unfold compute_envelope c5_spec_envelope
    dsimp only
    rw [bbox_fold_eq]
    rfl

/-- Claim C6: affine construction extracts the forward coefficients from
matrix indices 0,1,3,4,5,7, fails exactly when
`|M[0]·M[5] − M[1]·M[4]| < 1e-15`, stores the adjugate-over-determinant
inverse, and both evaluators apply the 2×3 affine formula with no failure at
evaluation time. -/
theorem C6_affine_construction :
    (∀ m : List ℝ, isErr (from_transformation_matrix m) = true ↔
      |m.getD 0 0 * m.getD 5 0 - m.getD 1 0 * m.getD 4 0| < 1e-15) ∧
    (∀ m : List ℝ, ¬ |m.getD 0 0 * m.getD 5 0 - m.getD 1 0 * m.getD 4 0| < 1e-15 →
      from_transformation_matrix m = .ok (.AffineTransform
        [m.getD 0 0, m.getD 1 0, m.getD 3 0, m.getD 4 0, m.getD 5 0, m.getD 7 0]
        [m.getD 5 0 / (m.getD 0 0 * m.getD 5 0 - m.getD 1 0 * m.getD 4 0),
         -m.getD 1 0 / (m.getD 0 0 * m.getD 5 0 - m.getD 1 0 * m.getD 4 0),
         (m.getD 1 0 * m.getD 7 0 - m.getD 3 0 * m.getD 5 0) /
           (m.getD 0 0 * m.getD 5 0 - m.getD 1 0 * m.getD 4 0),
         -m.getD 4 0 / (m.getD 0 0 * m.getD 5 0 - m.getD 1 0 * m.getD 4 0),
         m.getD 0 0 / (m.getD 0 0 * m.getD 5 0 - m.getD 1 0 * m.getD 4 0),
         (-m.getD 0 0 * m.getD 7 0 + m.getD 3 0 * m.getD 4 0) /
           (m.getD 0 0 * m.getD 5 0 - m.getD 1 0 * m.getD 4 0)])) ∧
    (∀ (f i : List ℝ) (c : Coord), transform_to_model (.AffineTransform f i) c =
      some ⟨c.x * f.getD 0 0 + c.y * f.getD 1 0 + f.getD 2 0,
            c.x * f.getD 3 0 + c.y * f.getD 4 0 + f.getD 5 0⟩) ∧
    (∀ (f i : List ℝ) (c : Coord), transform_to_raster (.AffineTransform f i) c =
      some ⟨c.x * i.getD 0 0 + c.y * i.getD 1 0 + i.getD 2 0,
            c.x * i.getD 3 0 + c.y * i.getD 4 0 + i.getD 5 0⟩) := by
  refine ⟨from_transformation_matrix_isErr, ?_, fun _ _ _ => rfl, fun _ _ _ => rfl⟩
  intro m h
  unfold from_transformation_matrix
  dsimp only
  rw [if_neg h]

/-- Claim C6 (witness): construction succeeds on a diagonal matrix with
determinant 6. -/
theorem C6_witness :
    from_transformation_matrix
      [2, 0, 0, 0, 0, 3, 0, 0, 0, 0, 1, 0, 0, 0, 0, 1] = .ok (.AffineTransform
        [List.getD [2, 0, 0, 0, 0, 3, 0, 0, 0, 0, 1, 0, 0, 0, 0, (1 : ℝ)] 0 0,
         List.getD [2, 0, 0, 0, 0, 3, 0, 0, 0, 0, 1, 0, 0, 0, 0, 1] 1 0,
         List.getD [2, 0, 0, 0, 0, 3, 0, 0, 0, 0, 1, 0, 0, 0, 0, 1] 3 0,
         List.getD [2, 0, 0, 0, 0, 3, 0, 0, 0, 0, 1, 0, 0, 0, 0, 1] 4 0,
         List.getD [2, 0, 0, 0, 0, 3, 0, 0, 0, 0, 1, 0, 0, 0, 0, 1] 5 0,
         List.getD [2, 0, 0, 0, 0, 3, 0, 0, 0, 0, 1, 0, 0, 0, 0, 1] 7 0]
        [List.getD [2, 0, 0, 0, 0, 3, 0, 0, 0, 0, 1, 0, 0, 0, 0, (1 : ℝ)] 5 0 /
           (List.getD [2, 0, 0, 0, 0, 3, 0, 0, 0, 0, 1, 0, 0, 0, 0, 1] 0 0 *
              List.getD [2, 0, 0, 0, 0, 3, 0, 0, 0, 0, 1, 0, 0, 0, 0, 1] 5 0 -
            List.getD [2, 0, 0, 0, 0, 3, 0, 0, 0, 0, 1, 0, 0, 0, 0, 1] 1 0 *
              List.getD [2, 0, 0, 0, 0, 3, 0, 0, 0, 0, 1, 0, 0, 0, 0, 1] 4 0),
         -List.getD [2, 0, 0, 0, 0, 3, 0, 0, 0, 0, 1, 0, 0, 0, 0, 1] 1 0 /
           (List.getD [2, 0, 0, 0, 0, 3, 0, 0, 0, 0, 1, 0, 0, 0, 0, 1] 0 0 *
              List.getD [2, 0, 0, 0, 0, 3, 0, 0, 0, 0, 1, 0, 0, 0, 0, 1] 5 0 -
            List.getD [2, 0, 0, 0, 0, 3, 0, 0, 0, 0, 1, 0, 0, 0, 0, 1] 1 0 *
              List.getD [2, 0, 0, 0, 0, 3, 0, 0, 0, 0, 1, 0, 0, 0, 0, 1] 4 0),
         (List.getD [2, 0, 0, 0, 0, 3, 0, 0, 0, 0, 1, 0, 0, 0, 0, 1] 1 0 *
            List.getD [2, 0, 0, 0, 0, 3, 0, 0, 0, 0, 1, 0, 0, 0, 0, 1] 7 0 -
          List.getD [2, 0, 0, 0, 0, 3, 0, 0, 0, 0, 1, 0, 0, 0, 0, 1] 3 0 *
            List.getD [2, 0, 0, 0, 0, 3, 0, 0, 0, 0, 1, 0, 0, 0, 0, 1] 5 0) /
           (List.getD [2, 0, 0, 0, 0, 3, 0, 0, 0, 0, 1, 0, 0, 0, 0, 1] 0 0 *
              List.getD [2, 0, 0, 0, 0, 3, 0, 0, 0, 0, 1, 0, 0, 0, 0, 1] 5 0 -
            List.getD [2, 0, 0, 0, 0, 3, 0, 0, 0, 0, 1, 0, 0, 0, 0, 1] 1 0 *
              List.getD [2, 0, 0, 0, 0, 3, 0, 0, 0, 0, 1, 0, 0, 0, 0, 1] 4 0),
         -List.getD [2, 0, 0, 0, 0, 3, 0, 0, 0, 0, 1, 0, 0, 0, 0, 1] 4 0 /
           (List.getD [2, 0, 0, 0, 0, 3, 0, 0, 0, 0, 1, 0, 0, 0, 0, 1] 0 0 *
              List.getD [2, 0, 0, 0, 0, 3, 0, 0, 0, 0, 1, 0, 0, 0, 0, 1] 5 0 -
            List.getD [2, 0, 0, 0, 0, 3, 0, 0, 0, 0, 1, 0, 0, 0, 0, 1] 1 0 *
              List.getD [2, 0, 0, 0, 0, 3, 0, 0, 0, 0, 1, 0, 0, 0, 0, 1] 4 0),
         List.getD [2, 0, 0, 0, 0, 3, 0, 0, 0, 0, 1, 0, 0, 0, 0, 1] 0 0 /
           (List.getD [2, 0, 0, 0, 0, 3, 0, 0, 0, 0, 1, 0, 0, 0, 0, 1] 0 0 *
              List.getD [2, 0, 0, 0, 0, 3, 0, 0, 0, 0, 1, 0, 0, 0, 0, 1] 5 0 -
            List.getD [2, 0, 0, 0, 0, 3, 0, 0, 0, 0, 1, 0, 0, 0, 0, 1] 1 0 *
              List.getD [2, 0, 0, 0, 0, 3, 0, 0, 0, 0, 1, 0, 0, 0, 0, 1] 4 0),
         (-List.getD [2, 0, 0, 0, 0, 3, 0, 0, 0, 0, 1, 0, 0, 0, 0, 1] 0 0 *
            List.getD [2, 0, 0, 0, 0, 3, 0, 0, 0, 0, 1, 0, 0, 0, 0, 1] 7 0 +
          List.getD [2, 0, 0, 0, 0, 3, 0, 0, 0, 0, 1, 0, 0, 0, 0, 1] 3 0 *
            List.getD [2, 0, 0, 0, 0, 3, 0, 0, 0, 0, 1, 0, 0, 0, 0, 1] 4 0) /
           (List.getD [2, 0, 0, 0, 0, 3, 0, 0, 0, 0, 1, 0, 0, 0, 0, 1] 0 0 *
              List.getD [2, 0, 0, 0, 0, 3, 0, 0, 0, 0, 1, 0, 0, 0, 0, 1] 5 0 -
            List.getD [2, 0, 0, 0, 0, 3, 0, 0, 0, 0, 1, 0, 0, 0, 0, 1] 1 0 *
              List.getD [2, 0, 0, 0, 0, 3, 0, 0, 0, 0, 1, 0, 0, 0, 0, 1] 4 0)]) :=
  C6_affine_construction.2.1 [2, 0, 0, 0, 0, 3, 0, 0, 0, 0, 1, 0, 0, 0, 0, 1]
    (by norm_num [List.getD])

/-- Claim C7: the scale/offset evaluators compute exactly the claimed
formulas (with the sign flip on the y scale), and the concrete scenario —
tie point `[0,0,0,100,200,0]` with pixel scale `[2,2,0]` — maps `(10,10)` to
`(120,180)`. -/
theorem C7_scale_offset :
    (∀ r m s c : Coord, transform_to_model_by_tie_point_and_pixel_scale r m s c =
      ⟨(c.x - r.x) * s.x + m.x, (c.y - r.y) * -s.y + m.y⟩) ∧
    (∀ r m s c : Coord, transform_to_raster_by_tie_point_and_pixel_scale r m s c =
      ⟨(c.x - m.x) / s.x + r.x, (c.y - m.y) / -s.y + r.y⟩) ∧
    (from_tag_data true dummy_triangulation (some [2, 2, 0]) (some [0, 0, 0, 100, 200, 0])
      none = .ok (.TiePointAndPixelScale ⟨0, 0⟩ ⟨100, 200⟩ ⟨2, 2⟩)) ∧
    (transform_to_model (.TiePointAndPixelScale ⟨0, 0⟩ ⟨100, 200⟩ ⟨2, 2⟩) ⟨10, 10⟩ =
      some ⟨120, 180⟩) := by
  refine ⟨fun _ _ _ _ => rfl, fun _ _ _ _ => rfl, rfl, ?_⟩
  unfold transform_to_model transform_to_model_by_tie_point_and_pixel_scale
  norm_num

/-- Claim C8 (counterexample): two independent refutations of the
unconditional round-trip property. First, a ScaleOffset transform is
successfully constructed from the zero pixel scale, but its round trip
collapses `(1,1)` to `(0,0)`. Second, on the diamond mesh no face contains
the control point `(8,0)` under signed-zero IEEE evaluation (face 1's
chain-edge cross product is `-0.0`, which `is_sign_positive` rejects; the
other three faces fail strictly), so the face search in
`transform_by_tie_points` returns nothing and the unwrap panics at a
control point — the round trip does not even complete there. -/
theorem C8_counterexample :
    from_tag_data true dummy_triangulation (some [0, 0, 0]) (some [0, 0, 0, 0, 0, 0]) none =
      .ok (.TiePointAndPixelScale ⟨0, 0⟩ ⟨0, 0⟩ ⟨0, 0⟩) ∧
    (transform_to_model (.TiePointAndPixelScale ⟨0, 0⟩ ⟨0, 0⟩ ⟨0, 0⟩) ⟨1, 1⟩).bind
      (transform_to_raster (.TiePointAndPixelScale ⟨0, 0⟩ ⟨0, 0⟩ ⟨0, 0⟩)) = some ⟨0, 0⟩ ∧
    (⟨0, 0⟩ : Coord) ≠ ⟨1, 1⟩ ∧
    dmesh.length = 4 ∧
    ¬ Face.contains_sf (dmesh.getD 0 default) ⟨.nz 8, .p0⟩ ∧
    ¬ Face.contains_sf (dmesh.getD 1 default) ⟨.nz 8, .p0⟩ ∧
    ¬ Face.contains_sf (dmesh.getD 2 default) ⟨.nz 8, .p0⟩ ∧
    ¬ Face.contains_sf (dmesh.getD 3 default) ⟨.nz 8, .p0⟩ := by
  rw [dmesh_eval]
  refine ⟨rfl, ?_, ?_, rfl, dsf_nc0_p2, dsf_nc1_p2, dsf_nc2_p2, dsf_nc3_p2⟩
  · unfold transform_to_model transform_to_raster
      transform_to_model_by_tie_point_and_pixel_scale
      transform_to_raster_by_tie_point_and_pixel_scale
    norm_num
  · intro h
    have := congrArg Coord.x h
    norm_num at this

/-- Claim C8 (amended): the round trip `to_raster ∘ to_model` is the
identity for every successfully constructed affine transform and for every
scale/offset transform whose pixel-scale components are nonzero; for the
representative triangulated transform it is the identity at the four control
points where the face search succeeds — at the fifth control point `(8,0)`
no face contains the point under signed-zero IEEE evaluation and the search
panics (see the counterexample). -/
theorem C8_round_trip :
    (∀ (m f i : List ℝ) (c : Coord),
      from_transformation_matrix m = .ok (.AffineTransform f i) →
      (transform_to_model (.AffineTransform f i) c).bind
        (transform_to_raster (.AffineTransform f i)) = some c) ∧
    (∀ r mp s c : Coord, s.x ≠ 0 → s.y ≠ 0 →
      (transform_to_model (.TiePointAndPixelScale r mp s) c).bind
        (transform_to_raster (.TiePointAndPixelScale r mp s)) = some c) ∧
    ((transform_to_model dtransform ⟨0, 0⟩).bind (transform_to_raster dtransform) =
      some ⟨0, 0⟩) ∧
    ((transform_to_model dtransform ⟨4, -3⟩).bind (transform_to_raster dtransform) =
      some ⟨4, -3⟩) ∧
    ((transform_to_model dtransform ⟨4, 3⟩).bind (transform_to_raster dtransform) =
      some ⟨4, 3⟩) ∧
    ((transform_to_model dtransform ⟨3, 1⟩).bind (transform_to_raster dtransform) =
      some ⟨3, 1⟩) := by
  refine ⟨affine_round_trip, scale_offset_round_trip, ?_, ?_, ?_, ?_⟩ <;>
    simp only [dtransform, transform_to_model, transform_to_raster,
      dtp_p0, dtp_p1, dtp_p3, dtp_p4, Option.bind]

/-- Claim C8 (witness): the scale/offset round trip at the concrete scenario
transform and point `(10,10)`. -/
theorem C8_witness :
    (transform_to_model (.TiePointAndPixelScale ⟨0, 0⟩ ⟨100, 200⟩ ⟨2, 2⟩) ⟨10, 10⟩).bind
      (transform_to_raster (.TiePointAndPixelScale ⟨0, 0⟩ ⟨100, 200⟩ ⟨2, 2⟩)) =
      some ⟨10, 10⟩ :=
  C8_round_trip.2.1 ⟨0, 0⟩ ⟨100, 200⟩ ⟨2, 2⟩ ⟨10, 10⟩ (by norm_num) (by norm_num)

/-- Claim C9: with all three tag arrays absent, the decoder's
`coordinate_transform` returns `Ok(None)` — a success, distinct from every
error, including the one `from_tag_data` itself would produce on the same
inputs — and `compute_index` then uses the model coordinate unchanged as the
raster coordinate. -/
theorem C9_no_transform :
    (∀ (cap : Bool) (tri : List Coord → Triangulation),
      coordinate_transform cap tri none none none = .ok none) ∧
    (∀ (cap : Bool) (tri : List Coord → Triangulation),
      isErr (from_tag_data cap tri none none none) = true) ∧
    (∀ c : Coord, compute_index_coord none c = some c) ∧
    (∀ (cap : Bool) (tri : List Coord → Triangulation) (ps tp tm : Option (List ℝ)),
      coordinate_transform cap tri ps tp tm =
        if ps.isNone && tp.isNone && tm.isNone then .ok none
        else (from_tag_data cap tri ps tp tm).map some) :=
  ⟨fun _ _ => rfl, fun _ _ => rfl, fun _ => rfl, fun _ _ _ _ _ => rfl⟩

/-- Claim C10: `from_tag_data` performs no nonzero check on the pixel scale
— the all-zero scale constructs a ScaleOffset transform successfully — and
on the IEEE value model the unguarded divisions of `to_raster` then produce
a non-finite component (infinity or NaN) in the zero-scale axis, while
`to_model` stays finite on finite inputs. -/
theorem C10_zero_pixel_scale :
    (∀ tri, from_tag_data true tri (some [0, 0, 0]) (some [0, 0, 0, 0, 0, 0]) none =
      .ok (.TiePointAndPixelScale ⟨0, 0⟩ ⟨0, 0⟩ ⟨0, 0⟩)) ∧
    (∀ rx ry mx my sy cx cy : ℝ,
      (transform_to_raster_by_tps_f64 ⟨.fin rx, .fin ry⟩ ⟨.fin mx, .fin my⟩
        ⟨.fin 0, .fin sy⟩ ⟨.fin cx, .fin cy⟩).x.isFinite = false) ∧
    (∀ rx ry mx my sx cx cy : ℝ,
      (transform_to_raster_by_tps_f64 ⟨.fin rx, .fin ry⟩ ⟨.fin mx, .fin my⟩
        ⟨.fin sx, .fin 0⟩ ⟨.fin cx, .fin cy⟩).y.isFinite = false) ∧
    (∀ rx ry mx my sx sy cx cy : ℝ,
      (transform_to_model_by_tps_f64 ⟨.fin rx, .fin ry⟩ ⟨.fin mx, .fin my⟩
        ⟨.fin sx, .fin sy⟩ ⟨.fin cx, .fin cy⟩).x.isFinite = true ∧
      (transform_to_model_by_tps_f64 ⟨.fin rx, .fin ry⟩ ⟨.fin mx, .fin my⟩
        ⟨.fin sx, .fin sy⟩ ⟨.fin cx, .fin cy⟩).y.isFinite = true) := by
  refine ⟨fun _ => rfl, ?_, ?_, ?_⟩
  · intro rx ry mx my sy cx cy
    unfold transform_to_raster_by_tps_f64
    dsimp only
    simp only [F64.sub, F64.div]
    rw [if_pos trivial]
    by_cases h : cx - mx = 0
    · rw [if_pos h]
      simp [F64.add, F64.isFinite]
    · rw [if_neg h]
      by_cases h2 : 0 < cx - mx
      · rw [if_pos h2]
        simp [F64.add, F64.isFinite]
      · rw [if_neg h2]
        simp [F64.add, F64.isFinite]
  · intro rx ry mx my sx cx cy
    unfold transform_to_raster_by_tps_f64
    dsimp only
    simp only [F64.sub, F64.div, F64.neg, neg_zero]
    rw [if_pos trivial]
    by_cases h : cy - my = 0
    · rw [if_pos h]
      simp [F64.add, F64.isFinite]
    · rw [if_neg h]
      by_cases h2 : 0 < cy - my
      · rw [if_pos h2]
        simp [F64.add, F64.isFinite]
      · rw [if_neg h2]
        simp [F64.add, F64.isFinite]
  · intro rx ry mx my sx sy cx cy
    unfold transform_to_model_by_tps_f64
    simp [F64.sub, F64.mul, F64.add, F64.neg, F64.isFinite]

end

end Geotiff
